import Mathlib

/-
Verification of the EduStream complaint bot (src/main.py): the conversation
state machine, the in-memory record store and the reviewer status workflow.
Strings are modelled as lists of characters; the Python-specific string
operations used by the source (startswith, replace, split("_"), strip,
lower, title) are embedded below.
-/

set_option maxHeartbeats 1000000

abbrev Str := List Char

def str (s : String) : Str := s.data

/-- Python `s.startswith(pat)` (first argument is the pattern). -/
def startsWith : Str → Str → Bool
  | [], _ => true
  | _ :: _, [] => false
  | p :: ps, c :: cs => p == c && startsWith ps cs

/-- Auxiliary scanner for `pyReplace`: `skip` is the number of already-matched
pattern characters still to consume after a replacement was emitted. -/
def pyReplaceAux (pat rep : Str) : Str → Nat → Str
  | [], _ => []
  | _ :: rest, skip + 1 => pyReplaceAux pat rep rest skip
  | c :: rest, 0 =>
    if pat ≠ [] ∧ startsWith pat (c :: rest) then
      rep ++ pyReplaceAux pat rep rest (pat.length - 1)
    else
      c :: pyReplaceAux pat rep rest 0

/-- Python `s.replace(pat, rep)`: left-to-right, non-overlapping occurrences.
(The source only calls it with non-empty patterns.) -/
def pyReplace (pat rep s : Str) : Str := pyReplaceAux pat rep s 0

/-- Python `s.lower()` (the source only lowercases ASCII labels). -/
def pyLower (s : Str) : Str := s.map Char.toLower

/-- Python whitespace stripped by `str.strip()`. -/
def isPySpace (c : Char) : Bool :=
  c == ' ' || c == '\t' || c == '\n' || c == '\r' || c == '\x0b' || c == '\x0c'

/-- Python `s.strip()`. -/
def pyStrip (s : Str) : Str :=
  ((s.dropWhile isPySpace).reverse.dropWhile isPySpace).reverse

def pyTitleAux : Bool → Str → Str
  | _, [] => []
  | prevCased, c :: rest =>
    if c.isAlpha then
      (if prevCased then c.toLower else c.toUpper) :: pyTitleAux true rest
    else
      c :: pyTitleAux false rest

/-- Python `s.title()` (ASCII behaviour, which covers the status labels). -/
def pyTitle (s : Str) : Str := pyTitleAux false s

/-- Python `s.split("_")`. -/
def splitUnder : Str → List Str
  | [] => [[]]
  | c :: cs =>
    if c = '_' then [] :: splitUnder cs
    else
      match splitUnder cs with
      | [] => [[c]]
      | p :: ps => (c :: p) :: ps

/-- Decimal digits of `n`, least significant first, with fuel `n` itself. -/
def natDigitsAux : Nat → Nat → Str
  | 0, _ => []
  | _ + 1, 0 => []
  | fuel + 1, n + 1 => Nat.digitChar ((n + 1) % 10) :: natDigitsAux fuel ((n + 1) / 10)

/-- Python `str(n)` for a natural number (as in `f"complaint_\x7bcounter\x7d"`). -/
def natRepr (n : Nat) : Str :=
  if n = 0 then [Nat.digitChar 0] else (natDigitsAux n n).reverse

/-- Numeric value of a most-significant-first digit string. -/
def charsVal (l : Str) : Nat := l.foldl (fun a c => 10 * a + (c.toNat - 48)) 0

/-- Numeric value of a least-significant-first digit string. -/
def dval (l : Str) : Nat := l.foldr (fun c a => 10 * a + (c.toNat - 48)) 0

/-- Association-list lookup (Python `dict` read; first match wins). -/
def lookupA {κ β : Type} [DecidableEq κ] : List (κ × β) → κ → Option β
  | [], _ => none
  | (k, v) :: t, k' => if k' = k then some v else lookupA t k'

/-- Association-list write (Python `dict` assignment: replace or append). -/
def setA {κ β : Type} [DecidableEq κ] : List (κ × β) → κ → β → List (κ × β)
  | [], k, v => [(k, v)]
  | (k', v') :: t, k, v => if k = k' then (k, v) :: t else (k', v') :: setA t k v

/-- Association-list delete (Python `del d[k]`; a dict holds one entry per
key, so removing every matching entry agrees with removing the entry). -/
def eraseA {κ β : Type} [DecidableEq κ] (m : List (κ × β)) (k : κ) : List (κ × β) :=
  m.filter (fun p => p.1 != k)

theorem lookupA_setA_self {κ β : Type} [DecidableEq κ] (m : List (κ × β)) (k : κ) (v : β) :
    lookupA (setA m k v) k = some v := by
  induction m with
  | nil => simp [setA, lookupA]
  | cons p t ih =>
    obtain ⟨k', v'⟩ := p
    by_cases h : k = k'
    · simp [setA, lookupA, h]
    · simp [setA, lookupA, h, ih]

theorem lookupA_setA_ne {κ β : Type} [DecidableEq κ] (m : List (κ × β)) (k k' : κ) (v : β)
    (h : k' ≠ k) : lookupA (setA m k v) k' = lookupA m k' := by
  induction m with
  | nil => simp [setA, lookupA, h]
  | cons p t ih =>
    obtain ⟨k₀, v₀⟩ := p
    by_cases h₀ : k = k₀
    · subst h₀; simp [setA, lookupA, h]
    · simp [setA, lookupA, h₀, ih]

theorem lookupA_eraseA_self {κ β : Type} [DecidableEq κ] (m : List (κ × β)) (k : κ) :
    lookupA (eraseA m k) k = none := by
  induction m with
  | nil => simp [eraseA, lookupA]
  | cons p t ih =>
    obtain ⟨k₀, v₀⟩ := p
    by_cases h : k₀ = k
    · have hb : (k₀ != k) = false := by simp [h]
      simpa [eraseA, List.filter_cons, hb] using ih
    · have hb : (k₀ != k) = true := by simp [h]
      simpa [eraseA, List.filter_cons, hb, lookupA, Ne.symm h] using ih

theorem lookupA_eraseA_ne {κ β : Type} [DecidableEq κ] (m : List (κ × β)) (k k' : κ)
    (h : k' ≠ k) : lookupA (eraseA m k) k' = lookupA m k' := by
  induction m with
  | nil => simp [eraseA, lookupA]
  | cons p t ih =>
    obtain ⟨k₀, v₀⟩ := p
    by_cases h₀ : k₀ = k
    · subst h₀
      have hb : (k₀ != k₀) = false := by simp
      simp [eraseA, List.filter_cons, hb, lookupA, h] at ih ⊢
      exact ih
    · have hb : (k₀ != k) = true := by simp [h₀]
      by_cases h₁ : k' = k₀
      · subst h₁; simp [eraseA, List.filter_cons, hb, lookupA]
      · simp [eraseA, List.filter_cons, hb, lookupA, h₁] at ih ⊢
        exact ih

theorem setA_eq_append {κ β : Type} [DecidableEq κ] (m : List (κ × β)) (k : κ) (v : β)
    (h : lookupA m k = none) : setA m k v = m ++ [(k, v)] := by
  induction m with
  | nil => simp [setA]
  | cons p t ih =>
    obtain ⟨k₀, v₀⟩ := p
    by_cases h₀ : k = k₀
    · subst h₀; simp [lookupA] at h
    · simp [lookupA, fun hh : k = k₀ => h₀ hh] at h
      simp [setA, h₀, ih (by simpa [lookupA, Ne.symm h₀] using h)]

theorem lookupA_setA_cases {κ β : Type} [DecidableEq κ] (m : List (κ × β)) (k k' : κ)
    (v w : β) (h : lookupA (setA m k v) k' = some w) :
    w = v ∨ lookupA m k' = some w := by
  by_cases hk : k' = k
  · subst hk; rw [lookupA_setA_self] at h; exact Or.inl (Option.some.inj h).symm
  · rw [lookupA_setA_ne _ _ _ _ hk] at h; exact Or.inr h

theorem startsWith_append (p t : Str) : startsWith p (p ++ t) = true := by
  induction p with
  | nil => simp [startsWith]
  | cons c cs ih => simp [startsWith, ih]

theorem startsWith_iff (p s : Str) : startsWith p s = true ↔ ∃ t, s = p ++ t := by
  constructor
  · intro h
    induction p generalizing s with
    | nil => exact ⟨s, rfl⟩
    | cons c cs ih =>
      cases s with
      | nil => simp [startsWith] at h
      | cons c' s' =>
        simp [startsWith] at h
        obtain ⟨t, ht⟩ := ih s' h.2
        exact ⟨t, by simp [h.1, ht]⟩
  · rintro ⟨t, rfl⟩
    exact startsWith_append p t

theorem digitChar_toNat : ∀ d, d < 10 → (Nat.digitChar d).toNat = 48 + d := by decide

theorem digitChar_ne_underscore : ∀ d, d < 10 → Nat.digitChar d ≠ '_' := by decide

theorem natDigitsAux_ne_underscore (fuel n : Nat) :
    ∀ c ∈ natDigitsAux fuel n, c ≠ '_' := by
  induction fuel generalizing n with
  | zero => simp [natDigitsAux]
  | succ fuel ih =>
    cases n with
    | zero => simp [natDigitsAux]
    | succ m =>
      intro c hc
      simp [natDigitsAux] at hc
      rcases hc with hc | hc
      · subst hc; exact digitChar_ne_underscore _ (Nat.mod_lt _ (by omega))
      · exact ih _ c hc

theorem natRepr_ne_underscore (n : Nat) : ∀ c ∈ natRepr n, c ≠ '_' := by
  intro c hc
  by_cases h : n = 0
  · subst h; simp [natRepr] at hc; subst hc; decide
  · simp [natRepr, h, List.mem_reverse] at hc
    exact natDigitsAux_ne_underscore n n c hc

theorem dval_cons (c : Char) (l : Str) : dval (c :: l) = 10 * dval l + (c.toNat - 48) := rfl

theorem dval_natDigitsAux (fuel n : Nat) (h : n ≤ fuel) :
    dval (natDigitsAux fuel n) = n := by
  induction fuel generalizing n with
  | zero => interval_cases n; simp [natDigitsAux, dval]
  | succ fuel ih =>
    cases n with
    | zero => simp [natDigitsAux, dval]
    | succ m =>
      rw [natDigitsAux, dval_cons, digitChar_toNat _ (Nat.mod_lt _ (by omega)),
        ih _ (by omega)]
      omega

theorem charsVal_reverse (l : Str) : charsVal l.reverse = dval l :=
  List.foldl_reverse _ _ _

theorem charsVal_natRepr (n : Nat) : charsVal (natRepr n) = n := by
  by_cases h : n = 0
  · subst h; decide
  · rw [natRepr, if_neg h, charsVal_reverse, dval_natDigitsAux n n le_rfl]

theorem natRepr_injective (a b : Nat) (h : natRepr a = natRepr b) : a = b := by
  have := charsVal_natRepr a
  rw [h, charsVal_natRepr] at this
  omega

theorem splitUnder_no_underscore (l : Str) (h : ∀ c ∈ l, c ≠ '_') :
    splitUnder l = [l] := by
  induction l with
  | nil => rfl
  | cons c cs ih =>
    have hc : ¬ c = '_' := h c (by simp)
    rw [splitUnder, if_neg hc, ih (fun c' hc' => h c' (by simp [hc']))]

theorem splitUnder_append_underscore (xs ys : Str) (h : ∀ c ∈ xs, c ≠ '_') :
    splitUnder (xs ++ '_' :: ys) = xs :: splitUnder ys := by
  induction xs with
  | nil => simp [splitUnder]
  | cons c cs ih =>
    have hc : ¬ c = '_' := h c (by simp)
    rw [List.cons_append, splitUnder, if_neg hc,
      ih (fun c' hc' => h c' (by simp [hc']))]

/-
Data model and configuration (src/main.py lines 23-46).
-/

def ADMIN_CHAT_ID : Nat := 5915871770

def BATCHES : List Str :=
  [str "Master quest 2.0 2025", str "master quest 2026", str "Ace ipm crash course"]

def SUBJECTS : List Str :=
  [str "Quant", str "DILR", str "VARC", str "Current Affairs"]

def STATUS_OPTIONS : List Str :=
  [str "Send", str "Seen", str "Approved", str "Resolved"]

/-- The status enumeration of the specification:
`submitted` (set at creation) plus the four admin labels, lowercased. -/
def statusEnum : List Str :=
  [str "submitted", str "send", str "seen", str "approved", str "resolved"]

/-- Conversation states (`range(5)` plus `ConversationHandler.END`);
`ADMIN_STATUS_UPDATE` is declared in the source but never used as a state. -/
inductive ConvState
  | BATCH_SELECTION
  | SUBJECT_SELECTION
  | LECTURE_NAME_INPUT
  | SCREENSHOT_UPLOAD
  | END
deriving DecidableEq, Repr

/-- Keys used with `store_user_data`. -/
inductive UserKey
  | batch
  | subject
  | lecture_name
  | complaint_id
deriving DecidableEq, Repr

/-- A per-user entry of `user_data_store`. -/
structure Draft where
  batch : Option Str := none
  subject : Option Str := none
  lecture_name : Option Str := none
  complaint_id : Option Str := none
deriving DecidableEq, Repr

def Draft.setKey (d : Draft) : UserKey → Str → Draft
  | .batch, v => { d with batch := some v }
  | .subject, v => { d with subject := some v }
  | .lecture_name, v => { d with lecture_name := some v }
  | .complaint_id, v => { d with complaint_id := some v }

/-- A record of `complaint_store` (`created_at` is always `None`; omitted). -/
structure Complaint where
  id : Str
  user_id : Nat
  username : Option Str
  batch : Option Str
  subject : Option Str
  lecture_name : Option Str
  photo_file_id : Str
  status : Str
deriving DecidableEq, Repr

/-- The global mutable stores of the process. -/
structure BotState where
  user_data_store : List (Nat × Draft) := []
  complaint_store : List (Str × Complaint) := []
  complaint_counter : Nat := 0
deriving DecidableEq, Repr

abbrev Button := Str × Str

abbrev Keyboard := List (List Button)

/-- Outbound calls made through the messaging gateway. -/
inductive OutAction
  | answerCallback (text : Option Str) (show_alert : Bool)
  | replyText (chat_id : Nat) (text : Str) (kb : Option Keyboard)
  | sendMessage (chat_id : Nat) (text : Str) (kb : Option Keyboard)
  | sendPhoto (chat_id : Nat) (photo : Str)
  | editMessageText (text : Str) (kb : Option Keyboard)
deriving DecidableEq, Repr

/-
Utility functions (src/main.py lines 49-129).
-/

def store_user_data (s : BotState) (user_id : Nat) (key : UserKey) (value : Str) : BotState :=
  let d := (lookupA s.user_data_store user_id).getD {}
  { s with user_data_store := setA s.user_data_store user_id (d.setKey key value) }

/-- `get_user_data(user_id)` with no key: the user's dict, `\x7b\x7d` if absent. -/
def get_user_draft (s : BotState) (user_id : Nat) : Draft :=
  (lookupA s.user_data_store user_id).getD {}

def clear_user_data (s : BotState) (user_id : Nat) : BotState :=
  { s with user_data_store := eraseA s.user_data_store user_id }

def complaintId (n : Nat) : Str := str "complaint_" ++ natRepr n

def create_complaint (s : BotState) (user_id : Nat) (username : Option Str)
    (batch subject lecture_name : Option Str) (photo_file_id : Str) : Str × BotState :=
  let counter := s.complaint_counter + 1
  let complaint_id := complaintId counter
  let complaint_data : Complaint :=
    { id := complaint_id, user_id := user_id, username := username, batch := batch,
      subject := subject, lecture_name := lecture_name, photo_file_id := photo_file_id,
      status := str "submitted" }
  (complaint_id,
   { s with complaint_counter := counter,
            complaint_store := setA s.complaint_store complaint_id complaint_data })

def update_complaint_status (s : BotState) (complaint_id new_status : Str) : BotState × Bool :=
  match lookupA s.complaint_store complaint_id with
  | some c =>
    ({ s with complaint_store := setA s.complaint_store complaint_id { c with status := new_status } },
     true)
  | none => (s, false)

def get_complaint (s : BotState) (complaint_id : Str) : Option Complaint :=
  lookupA s.complaint_store complaint_id

def is_admin (user_id : Nat) : Bool := user_id == ADMIN_CHAT_ID

/-- Python `or "No username"` (`None` and the empty string are falsy). -/
def usernameOrDefault : Option Str → Str
  | some u => if u = [] then str "No username" else u
  | none => str "No username"

/-- How an `Optional` field prints inside an f-string. -/
def showOpt : Option Str → Str
  | some u => u
  | none => str "None"

def format_complaint_message (c : Complaint) : Str :=
  str "\n🆘 **New Complaint Submitted**\n\n👤 **User Details:**\n• User ID: `"
    ++ natRepr c.user_id
    ++ str "`\n• Username: @" ++ usernameOrDefault c.username
    ++ str "\n\n📚 **Complaint Details:**\n• Batch: " ++ showOpt c.batch
    ++ str "\n• Subject: " ++ showOpt c.subject
    ++ str "\n• Lecture Name: " ++ showOpt c.lecture_name
    ++ str "\n\n📊 **Status:** " ++ pyTitle c.status
    ++ str "\n🆔 **Complaint ID:** `" ++ c.id
    ++ str "`\n\nPlease review and update the status accordingly.\n"

/-
Keyboard functions (src/main.py lines 131-164).
-/

def get_batch_keyboard : Keyboard :=
  BATCHES.map (fun batch => [(batch, str "batch_" ++ pyReplace (str " ") (str "_") batch)])

def get_subject_keyboard : Keyboard :=
  SUBJECTS.map (fun subject => [(subject, str "subject_" ++ pyReplace (str " ") (str "_") subject)])

/-- Rows of two buttons, as built by the `(i + 1) % 2 == 0` loop. -/
def chunkPairs : List Button → Keyboard
  | [] => []
  | [b] => [[b]]
  | b₁ :: b₂ :: rest => [b₁, b₂] :: chunkPairs rest

def statusCallbackData (complaint_id status : Str) : Str :=
  str "status_" ++ complaint_id ++ str "_" ++ pyLower status

def get_status_keyboard (complaint_id : Str) : Keyboard :=
  chunkPairs (STATUS_OPTIONS.map (fun status => (status, statusCallbackData complaint_id status)))

def get_back_to_batch_keyboard : Keyboard :=
  [[(str "🔄 Start Over", str "restart")]]

/-
Message texts (f-strings of src/main.py, with the dynamic parts spliced in).
-/

def welcome_message (first_name : Str) : Str :=
  str "\n👋 Welcome " ++ first_name
    ++ str "!\n\nI’m here to help you submit complaints about lectures.\n\nPlease follow these steps:\n1️⃣ Select your batch\n2️⃣ Choose the subject\n3️⃣ Enter the lecture name\n4️⃣ Upload a screenshot\n\nLet’s start by selecting your batch:\n"

def restart_text : Str := str "🔄 Starting over. Please select your batch:"

def batch_selected_text (batch : Str) : Str :=
  str "✅ Batch selected: **" ++ batch ++ str "**\n\nNow please select the subject:"

def subject_selected_text (subject : Str) (d : Draft) : Str :=
  str "✅ Subject selected: **" ++ subject ++ str "**\n📚 Batch: " ++ showOpt d.batch
    ++ str "\n\nNow please type the **lecture name** in the chat:"

def invalid_lecture_text : Str := str "❌ Please enter a valid lecture name:"

def lecture_summary_text (lecture_name : Str) (d : Draft) : Str :=
  str "\n✅ **Lecture name saved:** " ++ lecture_name
    ++ str "\n\n📋 **Summary so far:**\n• Batch: " ++ showOpt d.batch
    ++ str "\n• Subject: " ++ showOpt d.subject
    ++ str "\n• Lecture: " ++ lecture_name
    ++ str "\n\n📸 Now please send a **screenshot** (image file) related to your complaint:\n"

def screenshot_reject_text : Str :=
  str "❌ Please send an image file (screenshot). Other file types are not accepted."

def submit_confirm_text (complaint_id : Str) : Str :=
  str "✅ **Complaint submitted successfully!**\n\n🆔 **Complaint ID:** `" ++ complaint_id
    ++ str "`\n📊 **Status:** Submitted\n\nYour complaint has been forwarded to the admin team. You will be notified when the status changes.\n\nThank you for your feedback! 🙏"

def not_authorized_text : Str := str "❌ You are not authorized to perform this action."

def not_found_text : Str := str "❌ Complaint not found."

def status_update_text (complaint_id new_status : Str) (c : Complaint) : Str :=
  str "\n📊 **Complaint Status Updated**\n\n🆔 **Complaint ID:** `" ++ complaint_id
    ++ str "`\n📊 **New Status:** " ++ pyTitle new_status
    ++ str "\n\nYour complaint about:\n• Subject: " ++ showOpt c.subject
    ++ str "\n• Lecture: " ++ showOpt c.lecture_name
    ++ str "\n\nThank you for your patience! 🙏\n"

def status_updated_ok_text (new_status : Str) : Str :=
  str "✅ Status updated to: " ++ pyTitle new_status ++ str "\nUser has been notified."

def status_updated_notify_failed_text (new_status : Str) : Str :=
  str "✅ Status updated to: " ++ pyTitle new_status
    ++ str "\n⚠️ Could not notify user (user may have blocked the bot)."

def cancel_text : Str :=
  str "❌ **Complaint submission cancelled.**\n\nYou can start again anytime by using /start command.\n\nThank you! 🙏"

def unknown_text : Str :=
  str "❓ I don’t understand that command.\n\nUse /start to begin submitting a complaint."

/-
Handler functions (src/main.py lines 166-456).  Each handler is a pure
function of the acting user, the event payload and the stores; it returns
the next conversation state, the new stores and the outbound gateway calls.
-/

def start_command (uid : Nat) (first_name : Str) (s : BotState) :
    ConvState × BotState × List OutAction :=
  let s := clear_user_data s uid
  (.BATCH_SELECTION, s,
   [.replyText uid (welcome_message first_name) (some get_batch_keyboard)])

def batch_selection_handler (uid : Nat) (data : Str) (s : BotState) :
    ConvState × BotState × List OutAction :=
  let ans : OutAction := .answerCallback none false
  if data = str "restart" then
    (.BATCH_SELECTION, s, [ans, .replyText uid restart_text (some get_batch_keyboard)])
  else if startsWith (str "batch_") data then
    let batch := pyReplace (str "_") (str " ") (pyReplace (str "batch_") [] data)
    let s := store_user_data s uid .batch batch
    (.SUBJECT_SELECTION, s,
     [ans, .replyText uid (batch_selected_text batch) (some get_subject_keyboard)])
  else
    (.BATCH_SELECTION, s, [ans])

def subject_selection_handler (uid : Nat) (data : Str) (s : BotState) :
    ConvState × BotState × List OutAction :=
  let ans : OutAction := .answerCallback none false
  if startsWith (str "subject_") data then
    let subject := pyReplace (str "_") (str " ") (pyReplace (str "subject_") [] data)
    let s := store_user_data s uid .subject subject
    let user_data := get_user_draft s uid
    (.LECTURE_NAME_INPUT, s,
     [ans, .replyText uid (subject_selected_text subject user_data) none])
  else
    (.SUBJECT_SELECTION, s, [ans])

def lecture_name_handler (uid : Nat) (text : Str) (s : BotState) :
    ConvState × BotState × List OutAction :=
  let lecture_name := pyStrip text
  if lecture_name = [] then
    (.LECTURE_NAME_INPUT, s, [.replyText uid invalid_lecture_text none])
  else
    let s := store_user_data s uid .lecture_name lecture_name
    let user_data := get_user_draft s uid
    (.SCREENSHOT_UPLOAD, s,
     [.replyText uid (lecture_summary_text lecture_name user_data) none])

def send_complaint_to_admin (s : BotState) (complaint_id : Str) : List OutAction :=
  match get_complaint s complaint_id with
  | none => []
  | some complaint_data =>
    [.sendPhoto ADMIN_CHAT_ID complaint_data.photo_file_id,
     .sendMessage ADMIN_CHAT_ID (format_complaint_message complaint_data)
       (some (get_status_keyboard complaint_id))]

/-- `update.message.photo` is the list of available resolution variants in
increasing size; `photo[-1]` (here `getLastD`) is the largest one.  A text
message routed to this handler arrives with an empty list. -/
def screenshot_handler (uid : Nat) (username : Option Str) (photos : List Str) (s : BotState) :
    ConvState × BotState × List OutAction :=
  if photos = [] then
    (.SCREENSHOT_UPLOAD, s, [.replyText uid screenshot_reject_text none])
  else
    let photo_file_id := photos.getLastD []
    let user_data := get_user_draft s uid
    let r := create_complaint s uid username user_data.batch user_data.subject
      user_data.lecture_name photo_file_id
    let complaint_id := r.1
    let s := store_user_data r.2 uid .complaint_id complaint_id
    let acts := [OutAction.replyText uid (submit_confirm_text complaint_id) none]
      ++ send_complaint_to_admin s complaint_id
    let s := clear_user_data s uid
    (.END, s, acts)

/-- The payload parsing of `admin_status_handler`: `startswith("status_")`,
`split("_")`, length guard, middle parts rejoined as the id, last part as
the status token. -/
def parse_status_callback (data : Str) : Option (Str × Str) :=
  if startsWith (str "status_") data then
    let parts := splitUnder data
    if 3 ≤ parts.length then
      some (List.intercalate (str "_") ((parts.drop 1).dropLast), parts.getLastD [])
    else none
  else none

/-- Outcome of the `query.edit_message_text` attempt (the inner
`try/except BadRequest`). -/
inductive EditResult
  | ok
  | notModified
  | badRequestOther
deriving DecidableEq, Repr

/-- `notifyOk` is whether `context.bot.send_message` to the submitter
succeeds; on failure the outer `except` reports the soft warning and the
already-applied status change is kept. -/
def admin_status_handler (uid : Nat) (data : Str) (notifyOk : Bool) (eRes : EditResult)
    (s : BotState) : BotState × List OutAction :=
  if ¬ is_admin uid then
    (s, [.answerCallback (some not_authorized_text) true])
  else
    let ans : OutAction := .answerCallback none false
    match parse_status_callback data with
    | none => (s, [ans])
    | some (complaint_id, new_status) =>
      match get_complaint s complaint_id with
      | none => (s, [ans, .replyText uid not_found_text none])
      | some complaint_data =>
        let s := (update_complaint_status s complaint_id new_status).1
        if notifyOk then
          let notify : OutAction :=
            .sendMessage complaint_data.user_id
              (status_update_text complaint_id new_status complaint_data) none
          match eRes with
          | .ok =>
            match get_complaint s complaint_id with
            | some updated =>
              (s, [ans, notify,
                   .editMessageText (format_complaint_message updated)
                     (some (get_status_keyboard complaint_id))])
            | none => (s, [ans, notify])
          | .notModified => (s, [ans, notify])
          | .badRequestOther =>
            (s, [ans, notify, .replyText uid (status_updated_ok_text new_status) none])
        else
          (s, [ans, .replyText uid (status_updated_notify_failed_text new_status) none])

def cancel_handler (uid : Nat) (s : BotState) : ConvState × BotState × List OutAction :=
  let s := clear_user_data s uid
  (.END, s, [.replyText uid cancel_text none])

def unknown_handler (uid : Nat) : List OutAction :=
  [.replyText uid unknown_text none]

/-
Application wiring (src/main.py lines 458-506): the ConversationHandler with
its per-state handlers and fallbacks, followed by the admin
CallbackQueryHandler (pattern "^status_") and the unknown-command handler.
-/

/-- Inbound gateway events addressed to a user. -/
inductive Event
  | startCmd
  | cancelCmd
  | otherCmd (text : Str)
  | callback (data : Str)
  | textMsg (text : Str)
  | photoMsg (sizes : List Str)
deriving DecidableEq, Repr

/-- An inbound event with its sender and the environment's choices for the
fallible outbound calls made while handling it. -/
structure InboundEvent where
  uid : Nat
  username : Option Str := none
  first_name : Str := []
  ev : Event
  notifyOk : Bool := true
  editRes : EditResult := .ok
deriving DecidableEq, Repr

/-- Per-user conversation states plus the global stores. -/
structure GlobalState where
  conv : List (Nat × ConvState) := []
  bot : BotState := {}
deriving DecidableEq, Repr

/-- The conversation state of a user (no active conversation = `END`). -/
def convOf (gs : GlobalState) (uid : Nat) : ConvState :=
  (lookupA gs.conv uid).getD .END

/-- The draft of a user (absent = empty dict). -/
def draftOf (gs : GlobalState) (uid : Nat) : Draft :=
  get_user_draft gs.bot uid

def applyConv (gs : GlobalState) (uid : Nat) (t : ConvState × BotState × List OutAction) :
    GlobalState × List OutAction :=
  ({ conv := setA gs.conv uid t.1, bot := t.2.1 }, t.2.2)

/-- A callback query not matched by the active conversation state falls
through to the application-level admin handler (pattern "^status_"),
otherwise it is dropped. -/
def callback_fallthrough (gs : GlobalState) (e : InboundEvent) (data : Str) :
    GlobalState × List OutAction :=
  if startsWith (str "status_") data then
    let r := admin_status_handler e.uid data e.notifyOk e.editRes gs.bot
    ({ gs with bot := r.1 }, r.2)
  else
    (gs, [])

def handle_callback (gs : GlobalState) (e : InboundEvent) (st : ConvState) (data : Str) :
    GlobalState × List OutAction :=
  match st with
  | .BATCH_SELECTION =>
    if startsWith (str "batch_") data || startsWith (str "restart") data then
      applyConv gs e.uid (batch_selection_handler e.uid data gs.bot)
    else
      callback_fallthrough gs e data
  | .SUBJECT_SELECTION =>
    if startsWith (str "subject_") data then
      applyConv gs e.uid (subject_selection_handler e.uid data gs.bot)
    else
      callback_fallthrough gs e data
  | _ => callback_fallthrough gs e data

/-- One dispatch round of `application.run_polling` for a single update. -/
def step (gs : GlobalState) (e : InboundEvent) : GlobalState × List OutAction :=
  let st := convOf gs e.uid
  match e.ev with
  | .startCmd => applyConv gs e.uid (start_command e.uid e.first_name gs.bot)
  | .cancelCmd =>
    if st = .END then (gs, unknown_handler e.uid)
    else applyConv gs e.uid (cancel_handler e.uid gs.bot)
  | .otherCmd _ => (gs, unknown_handler e.uid)
  | .callback data => handle_callback gs e st data
  | .textMsg text =>
    match st with
    | .LECTURE_NAME_INPUT => applyConv gs e.uid (lecture_name_handler e.uid text gs.bot)
    | .SCREENSHOT_UPLOAD =>
      applyConv gs e.uid (screenshot_handler e.uid e.username [] gs.bot)
    | _ => (gs, [])
  | .photoMsg sizes =>
    match st with
    | .SCREENSHOT_UPLOAD =>
      applyConv gs e.uid (screenshot_handler e.uid e.username sizes gs.bot)
    | _ => (gs, [])

def stepState (gs : GlobalState) (e : InboundEvent) : GlobalState := (step gs e).1

def initState : GlobalState := {}

def runState (evs : List InboundEvent) : GlobalState :=
  evs.foldl stepState initState

def Reachable (gs : GlobalState) : Prop := ∃ evs : List InboundEvent, runState evs = gs

/-
Effect lemmas: how each store operation acts on per-user views.
-/

theorem get_user_draft_store_self (s : BotState) (uid : Nat) (k : UserKey) (v : Str) :
    get_user_draft (store_user_data s uid k v) uid = (get_user_draft s uid).setKey k v := by
  simp [get_user_draft, store_user_data, lookupA_setA_self]

theorem get_user_draft_store_ne (s : BotState) (uid u : Nat) (k : UserKey) (v : Str)
    (h : u ≠ uid) : get_user_draft (store_user_data s uid k v) u = get_user_draft s u := by
  simp [get_user_draft, store_user_data, lookupA_setA_ne _ _ _ _ h]

theorem get_user_draft_clear_self (s : BotState) (uid : Nat) :
    get_user_draft (clear_user_data s uid) uid = {} := by
  simp [get_user_draft, clear_user_data, lookupA_eraseA_self]

theorem get_user_draft_clear_ne (s : BotState) (uid u : Nat) (h : u ≠ uid) :
    get_user_draft (clear_user_data s uid) u = get_user_draft s u := by
  simp [get_user_draft, clear_user_data, lookupA_eraseA_ne _ _ _ h]

theorem store_user_data_complaint_store (s : BotState) (uid : Nat) (k : UserKey) (v : Str) :
    (store_user_data s uid k v).complaint_store = s.complaint_store := rfl

theorem store_user_data_counter (s : BotState) (uid : Nat) (k : UserKey) (v : Str) :
    (store_user_data s uid k v).complaint_counter = s.complaint_counter := rfl

theorem clear_user_data_complaint_store (s : BotState) (uid : Nat) :
    (clear_user_data s uid).complaint_store = s.complaint_store := rfl

theorem create_complaint_user_data (s : BotState) (uid : Nat) (un : Option Str)
    (b su ln : Option Str) (ph : Str) :
    (create_complaint s uid un b su ln ph).2.user_data_store = s.user_data_store := rfl

theorem update_complaint_status_user_data (s : BotState) (cid st : Str) :
    (update_complaint_status s cid st).1.user_data_store = s.user_data_store := by
  unfold update_complaint_status
  cases lookupA s.complaint_store cid <;> rfl

theorem admin_status_handler_user_data (uid : Nat) (data : Str) (nOk : Bool)
    (eRes : EditResult) (s : BotState) :
    (admin_status_handler uid data nOk eRes s).1.user_data_store = s.user_data_store := by
  unfold admin_status_handler
  by_cases h : is_admin uid = true
  · simp only [h]
    cases hp : parse_status_callback data with
    | none => simp
    | some p =>
      obtain ⟨cid, tok⟩ := p
      simp only
      cases hg : get_complaint s cid with
      | none => simp
      | some c =>
        simp only
        have hu := update_complaint_status_user_data s cid tok
        cases nOk with
        | false => simpa using hu
        | true =>
          cases eRes with
          | ok =>
            simp only
            cases get_complaint (update_complaint_status s cid tok).1 cid <;> simpa using hu
          | notModified => simpa using hu
          | badRequestOther => simpa using hu
  · simp [h]

theorem convOf_applyConv_self (gs : GlobalState) (uid : Nat)
    (t : ConvState × BotState × List OutAction) :
    convOf (applyConv gs uid t).1 uid = t.1 := by
  simp [convOf, applyConv, lookupA_setA_self]

theorem convOf_applyConv_ne (gs : GlobalState) (uid u : Nat)
    (t : ConvState × BotState × List OutAction) (h : u ≠ uid) :
    convOf (applyConv gs uid t).1 u = convOf gs u := by
  simp [convOf, applyConv, lookupA_setA_ne _ _ _ _ h]

theorem draftOf_applyConv (gs : GlobalState) (uid u : Nat)
    (t : ConvState × BotState × List OutAction) :
    draftOf (applyConv gs uid t).1 u = get_user_draft t.2.1 u := rfl

theorem callback_fallthrough_conv (gs : GlobalState) (e : InboundEvent) (data : Str) :
    (callback_fallthrough gs e data).1.conv = gs.conv := by
  unfold callback_fallthrough
  split <;> rfl

theorem callback_fallthrough_user_data (gs : GlobalState) (e : InboundEvent) (data : Str) :
    (callback_fallthrough gs e data).1.bot.user_data_store = gs.bot.user_data_store := by
  unfold callback_fallthrough
  split
  · exact admin_status_handler_user_data _ _ _ _ _
  · rfl

theorem callback_fallthrough_convOf (gs : GlobalState) (e : InboundEvent) (data : Str)
    (u : Nat) : convOf (callback_fallthrough gs e data).1 u = convOf gs u := by
  unfold convOf
  rw [callback_fallthrough_conv]

theorem callback_fallthrough_draftOf (gs : GlobalState) (e : InboundEvent) (data : Str)
    (u : Nat) : draftOf (callback_fallthrough gs e data).1 u = draftOf gs u := by
  unfold draftOf get_user_draft
  rw [callback_fallthrough_user_data]

/-
The ordering invariant of the draft (spec section 3): fields are populated
strictly in the order batch, subject, lecture_name.
-/

def draftOrderOK (d : Draft) : Prop :=
  (d.subject.isSome = true → d.batch.isSome = true) ∧
  (d.lecture_name.isSome = true → d.subject.isSome = true)

/-- What each conversation state guarantees about the user's draft. -/
def stateDraftOK : ConvState → Draft → Prop
  | .SUBJECT_SELECTION, d => d.batch.isSome = true
  | .LECTURE_NAME_INPUT, d => d.batch.isSome = true ∧ d.subject.isSome = true
  | .SCREENSHOT_UPLOAD, d =>
    d.batch.isSome = true ∧ d.subject.isSome = true ∧ d.lecture_name.isSome = true
  | _, _ => True

def convInv (gs : GlobalState) : Prop :=
  ∀ uid : Nat, draftOrderOK (draftOf gs uid) ∧ stateDraftOK (convOf gs uid) (draftOf gs uid)

theorem convInv_initState : convInv initState := by
  intro uid
  simp [initState, draftOf, get_user_draft, convOf, lookupA, draftOrderOK, stateDraftOK]

theorem convInv_applyConv (gs : GlobalState) (uid : Nat)
    (t : ConvState × BotState × List OutAction) (h : convInv gs)
    (hne : ∀ u, u ≠ uid → get_user_draft t.2.1 u = draftOf gs u)
    (hself : draftOrderOK (get_user_draft t.2.1 uid) ∧
             stateDraftOK t.1 (get_user_draft t.2.1 uid)) :
    convInv (applyConv gs uid t).1 := by
  intro u
  by_cases hu : u = uid
  · subst hu
    rw [draftOf_applyConv, convOf_applyConv_self]
    exact hself
  · rw [draftOf_applyConv, convOf_applyConv_ne _ _ _ _ hu, hne u hu]
    exact h u

theorem convInv_fallthrough (gs : GlobalState) (e : InboundEvent) (data : Str)
    (h : convInv gs) : convInv (callback_fallthrough gs e data).1 := by
  intro u
  rw [callback_fallthrough_convOf, callback_fallthrough_draftOf]
  exact h u

theorem get_user_draft_create (s : BotState) (uid : Nat) (un : Option Str)
    (b su ln : Option Str) (ph : Str) (u : Nat) :
    get_user_draft (create_complaint s uid un b su ln ph).2 u = get_user_draft s u := rfl

theorem convInv_batch_sel (gs : GlobalState) (uid : Nat) (data : Str) (h : convInv gs)
    (_hst : convOf gs uid = .BATCH_SELECTION) :
    convInv (applyConv gs uid (batch_selection_handler uid data gs.bot)).1 := by
  by_cases h1 : data = str "restart"
  · refine convInv_applyConv gs uid _ h ?_ ?_
    · intro u hu
      simp [batch_selection_handler, h1, draftOf]
    · constructor
      · simpa [batch_selection_handler, h1, draftOf] using (h uid).1
      · simp [batch_selection_handler, h1, stateDraftOK]
  · by_cases h2 : startsWith (str "batch_") data = true
    · refine convInv_applyConv gs uid _ h ?_ ?_
      · intro u hu
        simp [batch_selection_handler, h1, h2, get_user_draft_store_ne _ _ _ _ _ hu, draftOf]
      · obtain ⟨⟨-, ho2⟩, -⟩ := h uid
        constructor
        · refine ⟨fun _ => ?_, fun hl => ?_⟩
          · simp [batch_selection_handler, h1, h2, get_user_draft_store_self, Draft.setKey]
          · simp only [draftOf] at ho2
            simp [batch_selection_handler, h1, h2, get_user_draft_store_self,
              Draft.setKey] at hl ⊢
            exact ho2 hl
        · simp [batch_selection_handler, h1, h2, get_user_draft_store_self, Draft.setKey,
            stateDraftOK]
    · refine convInv_applyConv gs uid _ h ?_ ?_
      · intro u hu
        simp [batch_selection_handler, h1, h2, draftOf]
      · constructor
        · simpa [batch_selection_handler, h1, h2, draftOf] using (h uid).1
        · simp [batch_selection_handler, h1, h2, stateDraftOK]

theorem convInv_subject_sel (gs : GlobalState) (uid : Nat) (data : Str) (h : convInv gs)
    (hst : convOf gs uid = .SUBJECT_SELECTION) :
    convInv (applyConv gs uid (subject_selection_handler uid data gs.bot)).1 := by
  by_cases h1 : startsWith (str "subject_") data = true
  · refine convInv_applyConv gs uid _ h ?_ ?_
    · intro u hu
      simp [subject_selection_handler, h1, get_user_draft_store_ne _ _ _ _ _ hu, draftOf]
    · obtain ⟨⟨-, -⟩, hb⟩ := h uid
      rw [hst] at hb
      simp only [stateDraftOK] at hb
      simp only [draftOf] at hb
      constructor
      · refine ⟨fun _ => ?_, fun hl => ?_⟩
        · simpa [subject_selection_handler, h1, get_user_draft_store_self,
            Draft.setKey] using hb
        · simp [subject_selection_handler, h1, get_user_draft_store_self, Draft.setKey]
      · simp [subject_selection_handler, h1, get_user_draft_store_self, Draft.setKey,
          stateDraftOK, hb]
  · refine convInv_applyConv gs uid _ h ?_ ?_
    · intro u hu
      simp [subject_selection_handler, h1, draftOf]
    · constructor
      · simpa [subject_selection_handler, h1, draftOf] using (h uid).1
      · simp [subject_selection_handler, h1, stateDraftOK]
        simpa [draftOf, stateDraftOK, hst] using (h uid).2

theorem convInv_lecture (gs : GlobalState) (uid : Nat) (text : Str) (h : convInv gs)
    (hst : convOf gs uid = .LECTURE_NAME_INPUT) :
    convInv (applyConv gs uid (lecture_name_handler uid text gs.bot)).1 := by
  by_cases h1 : pyStrip text = []
  · refine convInv_applyConv gs uid _ h ?_ ?_
    · intro u hu
      simp [lecture_name_handler, h1, draftOf]
    · constructor
      · simpa [lecture_name_handler, h1, draftOf] using (h uid).1
      · simp [lecture_name_handler, h1, stateDraftOK]
        simpa [draftOf, stateDraftOK, hst] using (h uid).2
  · refine convInv_applyConv gs uid _ h ?_ ?_
    · intro u hu
      simp [lecture_name_handler, h1, get_user_draft_store_ne _ _ _ _ _ hu, draftOf]
    · obtain ⟨⟨-, -⟩, hb⟩ := h uid
      rw [hst] at hb
      simp only [stateDraftOK] at hb
      simp only [draftOf] at hb
      obtain ⟨hb1, hb2⟩ := hb
      constructor
      · refine ⟨fun _ => ?_, fun _ => ?_⟩
        · simpa [lecture_name_handler, h1, get_user_draft_store_self,
            Draft.setKey] using hb1
        · simpa [lecture_name_handler, h1, get_user_draft_store_self,
            Draft.setKey] using hb2
      · simp [lecture_name_handler, h1, get_user_draft_store_self, Draft.setKey,
          stateDraftOK, hb1, hb2]

theorem convInv_screenshot (gs : GlobalState) (uid : Nat) (uname : Option Str)
    (photos : List Str) (h : convInv gs) (hst : convOf gs uid = .SCREENSHOT_UPLOAD) :
    convInv (applyConv gs uid (screenshot_handler uid uname photos gs.bot)).1 := by
  by_cases hp : photos = []
  · refine convInv_applyConv gs uid _ h ?_ ?_
    · intro u hu
      simp [screenshot_handler, hp, draftOf]
    · constructor
      · simpa [screenshot_handler, hp, draftOf] using (h uid).1
      · simp [screenshot_handler, hp, stateDraftOK]
        simpa [draftOf, stateDraftOK, hst] using (h uid).2
  · refine convInv_applyConv gs uid _ h ?_ ?_
    · intro u hu
      simp [screenshot_handler, hp, get_user_draft_clear_ne _ _ _ hu,
        get_user_draft_store_ne _ _ _ _ _ hu, get_user_draft_create, draftOf]
    · constructor
      · simp [screenshot_handler, hp, get_user_draft_clear_self, draftOrderOK]
      · simp [screenshot_handler, hp, stateDraftOK]

theorem convInv_step (gs : GlobalState) (e : InboundEvent) (h : convInv gs) :
    convInv (stepState gs e) := by
  obtain ⟨uid, uname, fn, ev, nOk, eRes⟩ := e
  cases ev with
  | startCmd =>
    refine convInv_applyConv gs uid _ h ?_ ?_
    · intro u hu
      simp [start_command, get_user_draft_clear_ne _ _ _ hu, draftOf]
    · constructor
      · simp [start_command, get_user_draft_clear_self, draftOrderOK]
      · simp [start_command, get_user_draft_clear_self, stateDraftOK]
  | cancelCmd =>
    simp only [stepState, step]
    split
    · exact h
    · refine convInv_applyConv gs uid _ h ?_ ?_
      · intro u hu
        simp [cancel_handler, get_user_draft_clear_ne _ _ _ hu, draftOf]
      · constructor
        · simp [cancel_handler, get_user_draft_clear_self, draftOrderOK]
        · simp [cancel_handler, get_user_draft_clear_self, stateDraftOK]
  | otherCmd t => exact h
  | callback data =>
    simp only [stepState, step]
    rcases hst : convOf gs uid with _ | _ | _ | _ | _
    all_goals simp only [handle_callback]
    · split
      · exact convInv_batch_sel gs uid data h hst
      · exact convInv_fallthrough _ _ _ h
    · split
      · exact convInv_subject_sel gs uid data h hst
      · exact convInv_fallthrough _ _ _ h
    · exact convInv_fallthrough _ _ _ h
    · exact convInv_fallthrough _ _ _ h
    · exact convInv_fallthrough _ _ _ h
  | textMsg text =>
    simp only [stepState, step]
    rcases hst : convOf gs uid with _ | _ | _ | _ | _
    · exact h
    · exact h
    · exact convInv_lecture gs uid text h hst
    · exact convInv_screenshot gs uid uname [] h hst
    · exact h
  | photoMsg sizes =>
    simp only [stepState, step]
    rcases hst : convOf gs uid with _ | _ | _ | _ | _
    · exact h
    · exact h
    · exact h
    · exact convInv_screenshot gs uid uname sizes h hst
    · exact h

theorem convInv_runState (evs : List InboundEvent) : convInv (runState evs) := by
  have main : ∀ gs, convInv gs → convInv (evs.foldl stepState gs) := by
    induction evs with
    | nil => intro gs hg; exact hg
    | cons e t ih => intro gs hg; exact ih _ (convInv_step gs e hg)
  exact main initState convInv_initState

/-
The status invariant of claim C2.  `update_complaint_status` stores whatever
token it is given; the invariant therefore only holds for event streams whose
status-callback payloads parse to tokens of the enumeration.
-/

def statusesOK (s : BotState) : Prop :=
  ∀ cid c, lookupA s.complaint_store cid = some c → c.status ∈ statusEnum

/-- An inbound event whose status-callback token (if any) belongs to the
status enumeration. -/
def goodEvent (e : InboundEvent) : Bool :=
  match e.ev with
  | .callback data =>
    match parse_status_callback data with
    | some (_, tok) => decide (tok ∈ statusEnum)
    | none => true
  | _ => true

theorem statusesOK_store_user_data (s : BotState) (uid : Nat) (k : UserKey) (v : Str)
    (h : statusesOK s) : statusesOK (store_user_data s uid k v) := h

theorem statusesOK_clear_user_data (s : BotState) (uid : Nat)
    (h : statusesOK s) : statusesOK (clear_user_data s uid) := h

theorem statusesOK_create_complaint (s : BotState) (uid : Nat) (un : Option Str)
    (b su ln : Option Str) (ph : Str) (h : statusesOK s) :
    statusesOK (create_complaint s uid un b su ln ph).2 := by
  intro cid c hc
  simp only [create_complaint] at hc
  rcases lookupA_setA_cases _ _ _ _ _ hc with hv | hv
  · subst hv; simp [statusEnum]
  · exact h cid c hv

theorem statusesOK_update (s : BotState) (cid tok : Str) (htok : tok ∈ statusEnum)
    (h : statusesOK s) : statusesOK (update_complaint_status s cid tok).1 := by
  intro cid' c' hc'
  unfold update_complaint_status at hc'
  cases hl : lookupA s.complaint_store cid with
  | none => rw [hl] at hc'; exact h cid' c' hc'
  | some c =>
    rw [hl] at hc'
    simp only at hc'
    rcases lookupA_setA_cases _ _ _ _ _ hc' with hv | hv
    · subst hv; exact htok
    · exact h cid' c' hv

theorem statusesOK_admin (uid : Nat) (data : Str) (nOk : Bool) (eRes : EditResult)
    (s : BotState) (h : statusesOK s)
    (hgood : ∀ cid tok, parse_status_callback data = some (cid, tok) → tok ∈ statusEnum) :
    statusesOK (admin_status_handler uid data nOk eRes s).1 := by
  unfold admin_status_handler
  by_cases ha : is_admin uid = true
  · simp only [ha]
    cases hp : parse_status_callback data with
    | none => simpa using h
    | some p =>
      obtain ⟨cid, tok⟩ := p
      have htok := hgood cid tok hp
      simp only
      cases hg : get_complaint s cid with
      | none => simpa using h
      | some c =>
        simp only
        have hup := statusesOK_update s cid tok htok h
        cases nOk with
        | false => simpa using hup
        | true =>
          cases eRes with
          | ok =>
            simp only
            cases get_complaint (update_complaint_status s cid tok).1 cid <;> simpa using hup
          | notModified => simpa using hup
          | badRequestOther => simpa using hup
  · simp [ha, h]

theorem statusesOK_step (gs : GlobalState) (e : InboundEvent) (hg : goodEvent e = true)
    (h : statusesOK gs.bot) : statusesOK (stepState gs e).bot := by
  obtain ⟨uid, uname, fn, ev, nOk, eRes⟩ := e
  cases ev with
  | startCmd => exact statusesOK_clear_user_data _ _ h
  | cancelCmd =>
    simp only [stepState, step]
    split
    · exact h
    · exact statusesOK_clear_user_data _ _ h
  | otherCmd t => exact h
  | callback data =>
    have hgood : ∀ cid tok, parse_status_callback data = some (cid, tok) → tok ∈ statusEnum := by
      intro cid tok hp
      simp only [goodEvent, hp] at hg
      exact of_decide_eq_true hg
    simp only [stepState, step]
    have hfall : statusesOK (callback_fallthrough gs ⟨uid, uname, fn, .callback data, nOk, eRes⟩ data).1.bot := by
      unfold callback_fallthrough
      split
      · exact statusesOK_admin _ _ _ _ _ h hgood
      · exact h
    rcases hst : convOf gs uid with _ | _ | _ | _ | _
    all_goals simp only [handle_callback]
    · split
      · unfold batch_selection_handler
        split
        · exact h
        · split
          · exact statusesOK_store_user_data _ _ _ _ h
          · exact h
      · exact hfall
    · split
      · unfold subject_selection_handler
        split
        · exact statusesOK_store_user_data _ _ _ _ h
        · exact h
      · exact hfall
    · exact hfall
    · exact hfall
    · exact hfall
  | textMsg text =>
    simp only [stepState, step]
    rcases hst : convOf gs uid with _ | _ | _ | _ | _
    · exact h
    · exact h
    · show statusesOK (applyConv gs uid (lecture_name_handler uid text gs.bot)).1.bot
      by_cases h1 : pyStrip text = []
      · simpa [lecture_name_handler, h1, applyConv] using h
      · simpa [lecture_name_handler, h1, applyConv] using
          statusesOK_store_user_data gs.bot uid .lecture_name (pyStrip text) h
    · show statusesOK (applyConv gs uid (screenshot_handler uid uname [] gs.bot)).1.bot
      simpa [screenshot_handler, applyConv] using h
    · exact h
  | photoMsg sizes =>
    simp only [stepState, step]
    rcases hst : convOf gs uid with _ | _ | _ | _ | _
    · exact h
    · exact h
    · exact h
    · show statusesOK (applyConv gs uid (screenshot_handler uid uname sizes gs.bot)).1.bot
      by_cases hp : sizes = []
      · simpa [screenshot_handler, hp, applyConv] using h
      · simpa [screenshot_handler, hp, applyConv] using
          statusesOK_clear_user_data _ uid
            (statusesOK_store_user_data _ uid .complaint_id _
              (statusesOK_create_complaint gs.bot uid uname _ _ _ _ h))
    · exact h

theorem statusesOK_initState : statusesOK initState.bot := by
  intro cid c hc
  simp [initState, lookupA] at hc

theorem statusesOK_runState (evs : List InboundEvent)
    (hg : ∀ e ∈ evs, goodEvent e = true) : statusesOK (runState evs).bot := by
  suffices main : ∀ (l : List InboundEvent) (gs : GlobalState), statusesOK gs.bot →
      (∀ e ∈ l, goodEvent e = true) → statusesOK (l.foldl stepState gs).bot by
    exact main evs initState statusesOK_initState hg
  intro l
  induction l with
  | nil => intro gs hgs _; exact hgs
  | cons e t ih =>
    intro gs hgs hall
    exact ih (stepState gs e) (statusesOK_step gs e (hall e (by simp)) hgs)
      (fun x hx => hall x (by simp [hx]))

/-
Sequences of `create_complaint` calls, for the id-uniqueness claim.
-/

structure CreateReq where
  user_id : Nat
  username : Option Str
  batch : Option Str
  subject : Option Str
  lecture_name : Option Str
  photo : Str

/-- Run a sequence of complaint creations, collecting the returned ids. -/
def runCreates : BotState → List CreateReq → List Str × BotState
  | s, [] => ([], s)
  | s, r :: rs =>
    let c := create_complaint s r.user_id r.username r.batch r.subject r.lecture_name r.photo
    let rest := runCreates c.2 rs
    (c.1 :: rest.1, rest.2)

theorem create_complaint_counter (s : BotState) (uid : Nat) (un : Option Str)
    (b su ln : Option Str) (ph : Str) :
    (create_complaint s uid un b su ln ph).2.complaint_counter = s.complaint_counter + 1 := rfl

theorem runCreates_getD (s : BotState) (rs : List CreateReq) (k : Nat)
    (hk : k < (runCreates s rs).1.length) :
    (runCreates s rs).1.getD k [] = complaintId (s.complaint_counter + k + 1) := by
  induction rs generalizing s k with
  | nil => simp [runCreates] at hk
  | cons r t ih =>
    cases k with
    | zero => simp [runCreates, create_complaint]
    | succ m =>
      have hk' : m < (runCreates (create_complaint s r.user_id r.username r.batch r.subject
          r.lecture_name r.photo).2 t).1.length := by
        simpa [runCreates] using hk
      have hrec := ih _ m hk'
      rw [create_complaint_counter] at hrec
      have harith : s.complaint_counter + 1 + m + 1 = s.complaint_counter + (m + 1) + 1 := by omega
      rw [harith] at hrec
      simpa [runCreates] using hrec

/-- The numeric part of an id of the form `complaint_N`. -/
def idNum (l : Str) : Nat := charsVal (List.drop (str "complaint_").length l)

theorem idNum_complaintId (n : Nat) : idNum (complaintId n) = n := by
  simp [idNum, complaintId, charsVal_natRepr]

/-
The encode/decode round trip of the admin status keyboard (claim C10).
-/

theorem str_status_split : str "status_" = str "status" ++ '_' :: [] := rfl

theorem str_complaint_split : str "complaint_" = str "complaint" ++ '_' :: [] := rfl

theorem parse_encode (ds tok : Str) (h1 : ∀ c ∈ ds, c ≠ '_') (h2 : ∀ c ∈ tok, c ≠ '_') :
    parse_status_callback (str "status_" ++ (str "complaint_" ++ ds) ++ str "_" ++ tok)
      = some (str "complaint_" ++ ds, tok) := by
  have hdata : str "status_" ++ (str "complaint_" ++ ds) ++ str "_" ++ tok
      = str "status" ++ '_' :: (str "complaint" ++ '_' :: (ds ++ '_' :: tok)) := by
    have hu : str "_" = ['_'] := rfl
    rw [str_status_split, str_complaint_split, hu]
    simp [List.append_assoc]
  have hsw : startsWith (str "status_") (str "status_" ++ (str "complaint_" ++ ds) ++ str "_" ++ tok) = true := by
    have : str "status_" ++ (str "complaint_" ++ ds) ++ str "_" ++ tok
        = str "status_" ++ ((str "complaint_" ++ ds) ++ str "_" ++ tok) := by
      simp [List.append_assoc]
    rw [this]
    exact startsWith_append _ _
  have hsplit : splitUnder (str "status_" ++ (str "complaint_" ++ ds) ++ str "_" ++ tok)
      = [str "status", str "complaint", ds, tok] := by
    rw [hdata, splitUnder_append_underscore _ _ (by decide),
      splitUnder_append_underscore _ _ (by decide),
      splitUnder_append_underscore _ _ h1, splitUnder_no_underscore _ h2]
  unfold parse_status_callback
  rw [hsw, if_pos rfl, hsplit]
  have hlen : (3 : Nat) ≤ ([str "status", str "complaint", ds, tok].length) := by simp
  rw [if_pos hlen]
  have hmid : (([str "status", str "complaint", ds, tok].drop 1).dropLast)
      = [str "complaint", ds] := by simp
  have hlast : [str "status", str "complaint", ds, tok].getLastD [] = tok := by
    simp [List.getLastD]
  rw [hmid, hlast]
  have hinter : List.intercalate (str "_") [str "complaint", ds] = str "complaint_" ++ ds := by
    rw [str_complaint_split]
    simp [List.intercalate, List.intersperse, str]
  rw [hinter]

/-
Every stored complaint id is `complaint_m` for some `m` at most the current
counter, so the next id to be allocated is always fresh.
-/

def idsBounded (s : BotState) : Prop :=
  ∀ cid c, lookupA s.complaint_store cid = some c →
    ∃ m, m ≤ s.complaint_counter ∧ cid = complaintId m

theorem idsBounded_store_user_data (s : BotState) (uid : Nat) (k : UserKey) (v : Str)
    (h : idsBounded s) : idsBounded (store_user_data s uid k v) := h

theorem idsBounded_clear_user_data (s : BotState) (uid : Nat)
    (h : idsBounded s) : idsBounded (clear_user_data s uid) := h

theorem idsBounded_create_complaint (s : BotState) (uid : Nat) (un : Option Str)
    (b su ln : Option Str) (ph : Str) (h : idsBounded s) :
    idsBounded (create_complaint s uid un b su ln ph).2 := by
  intro cid c hc
  simp only [create_complaint] at hc ⊢
  by_cases hk : cid = complaintId (s.complaint_counter + 1)
  · exact ⟨s.complaint_counter + 1, le_rfl, hk⟩
  · rw [lookupA_setA_ne _ _ _ _ hk] at hc
    obtain ⟨m, hm, hcid⟩ := h cid c hc
    exact ⟨m, by omega, hcid⟩

theorem update_complaint_status_counter (s : BotState) (cid tok : Str) :
    (update_complaint_status s cid tok).1.complaint_counter = s.complaint_counter := by
  unfold update_complaint_status
  cases lookupA s.complaint_store cid <;> rfl

theorem idsBounded_update (s : BotState) (cid tok : Str) (h : idsBounded s) :
    idsBounded (update_complaint_status s cid tok).1 := by
  intro cid' c' hc'
  rw [update_complaint_status_counter]
  unfold update_complaint_status at hc'
  cases hl : lookupA s.complaint_store cid with
  | none => rw [hl] at hc'; exact h cid' c' hc'
  | some c =>
    rw [hl] at hc'
    simp only at hc'
    by_cases hk : cid' = cid
    · subst hk; exact h cid' c hl
    · rw [lookupA_setA_ne _ _ _ _ hk] at hc'
      exact h cid' c' hc'

theorem idsBounded_admin (uid : Nat) (data : Str) (nOk : Bool) (eRes : EditResult)
    (s : BotState) (h : idsBounded s) :
    idsBounded (admin_status_handler uid data nOk eRes s).1 := by
  unfold admin_status_handler
  by_cases ha : is_admin uid = true
  · simp only [ha]
    cases hp : parse_status_callback data with
    | none => simpa using h
    | some p =>
      obtain ⟨cid, tok⟩ := p
      simp only
      cases hg : get_complaint s cid with
      | none => simpa using h
      | some c =>
        simp only
        have hup := idsBounded_update s cid tok h
        cases nOk with
        | false => simpa using hup
        | true =>
          cases eRes with
          | ok =>
            simp only
            cases get_complaint (update_complaint_status s cid tok).1 cid <;> simpa using hup
          | notModified => simpa using hup
          | badRequestOther => simpa using hup
  · simp [ha, h]

theorem idsBounded_step (gs : GlobalState) (e : InboundEvent)
    (h : idsBounded gs.bot) : idsBounded (stepState gs e).bot := by
  obtain ⟨uid, uname, fn, ev, nOk, eRes⟩ := e
  cases ev with
  | startCmd => exact idsBounded_clear_user_data _ _ h
  | cancelCmd =>
    simp only [stepState, step]
    split
    · exact h
    · exact idsBounded_clear_user_data _ _ h
  | otherCmd t => exact h
  | callback data =>
    simp only [stepState, step]
    have hfall : idsBounded (callback_fallthrough gs ⟨uid, uname, fn, .callback data, nOk, eRes⟩ data).1.bot := by
      unfold callback_fallthrough
      split
      · exact idsBounded_admin _ _ _ _ _ h
      · exact h
    rcases hst : convOf gs uid with _ | _ | _ | _ | _
    all_goals simp only [handle_callback]
    · split
      · show idsBounded (applyConv gs uid (batch_selection_handler uid data gs.bot)).1.bot
        by_cases h1 : data = str "restart"
        · simpa [batch_selection_handler, h1, applyConv] using h
        · by_cases h2 : startsWith (str "batch_") data = true
          · simpa [batch_selection_handler, h1, h2, applyConv] using
              idsBounded_store_user_data gs.bot uid .batch _ h
          · simpa [batch_selection_handler, h1, h2, applyConv] using h
      · exact hfall
    · split
      · show idsBounded (applyConv gs uid (subject_selection_handler uid data gs.bot)).1.bot
        by_cases h1 : startsWith (str "subject_") data = true
        · simpa [subject_selection_handler, h1, applyConv] using
            idsBounded_store_user_data gs.bot uid .subject _ h
        · simpa [subject_selection_handler, h1, applyConv] using h
      · exact hfall
    · exact hfall
    · exact hfall
    · exact hfall
  | textMsg text =>
    simp only [stepState, step]
    rcases hst : convOf gs uid with _ | _ | _ | _ | _
    · exact h
    · exact h
    · show idsBounded (applyConv gs uid (lecture_name_handler uid text gs.bot)).1.bot
      by_cases h1 : pyStrip text = []
      · simpa [lecture_name_handler, h1, applyConv] using h
      · simpa [lecture_name_handler, h1, applyConv] using
          idsBounded_store_user_data gs.bot uid .lecture_name (pyStrip text) h
    · show idsBounded (applyConv gs uid (screenshot_handler uid uname [] gs.bot)).1.bot
      simpa [screenshot_handler, applyConv] using h
    · exact h
  | photoMsg sizes =>
    simp only [stepState, step]
    rcases hst : convOf gs uid with _ | _ | _ | _ | _
    · exact h
    · exact h
    · exact h
    · show idsBounded (applyConv gs uid (screenshot_handler uid uname sizes gs.bot)).1.bot
      by_cases hp : sizes = []
      · simpa [screenshot_handler, hp, applyConv] using h
      · simpa [screenshot_handler, hp, applyConv] using
          idsBounded_clear_user_data _ uid
            (idsBounded_store_user_data _ uid .complaint_id _
              (idsBounded_create_complaint gs.bot uid uname _ _ _ _ h))
    · exact h

theorem idsBounded_initState : idsBounded initState.bot := by
  intro cid c hc
  simp [initState, lookupA] at hc

theorem idsBounded_runState (evs : List InboundEvent) : idsBounded (runState evs).bot := by
  suffices main : ∀ (l : List InboundEvent) (gs : GlobalState), idsBounded gs.bot →
      idsBounded (l.foldl stepState gs).bot by
    exact main evs initState idsBounded_initState
  intro l
  induction l with
  | nil => intro gs hgs; exact hgs
  | cons e t ih => intro gs hgs; exact ih (stepState gs e) (idsBounded_step gs e hgs)

theorem idsBounded_fresh (s : BotState) (h : idsBounded s) :
    lookupA s.complaint_store (complaintId (s.complaint_counter + 1)) = none := by
  cases hl : lookupA s.complaint_store (complaintId (s.complaint_counter + 1)) with
  | none => rfl
  | some c =>
    obtain ⟨m, hm, hcid⟩ := h _ c hl
    have := idNum_complaintId (s.complaint_counter + 1)
    rw [hcid, idNum_complaintId] at this
    omega

/-
Routing facts: a callback payload starting with "status_" never matches the
conversation patterns "^(batch_|restart)" or "^subject_", so in every
conversation state it falls through to the admin handler.
-/

theorem status_not_batch (t : Str) : startsWith (str "batch_") (str "status_" ++ t) = false := rfl

theorem status_not_restart (t : Str) : startsWith (str "restart") (str "status_" ++ t) = false := rfl

theorem status_not_subject (t : Str) : startsWith (str "subject_") (str "status_" ++ t) = false := rfl

theorem handle_callback_status (gs : GlobalState) (e : InboundEvent) (st : ConvState)
    (data : Str) (hsw : startsWith (str "status_") data = true) :
    handle_callback gs e st data = callback_fallthrough gs e data := by
  obtain ⟨t, rfl⟩ := (startsWith_iff _ _).1 hsw
  cases st <;>
    simp [handle_callback, status_not_batch, status_not_restart, status_not_subject]

theorem step_status_callback (gs : GlobalState) (uid : Nat) (uname : Option Str) (fn : Str)
    (data : Str) (nOk : Bool) (eRes : EditResult)
    (hsw : startsWith (str "status_") data = true) :
    step gs ⟨uid, uname, fn, .callback data, nOk, eRes⟩
      = ({ gs with bot := (admin_status_handler uid data nOk eRes gs.bot).1 },
         (admin_status_handler uid data nOk eRes gs.bot).2) := by
  simp only [step]
  rw [handle_callback_status _ _ _ _ hsw]
  unfold callback_fallthrough
  rw [if_pos hsw]

theorem parse_some_startsWith (data : Str) (p : Str × Str)
    (h : parse_status_callback data = some p) :
    startsWith (str "status_") data = true := by
  unfold parse_status_callback at h
  by_cases hsw : startsWith (str "status_") data = true
  · exact hsw
  · rw [if_neg hsw] at h; exact absurd h (by simp)

theorem update_complaint_status_absent (s : BotState) (cid tok : Str)
    (h : lookupA s.complaint_store cid = none) :
    update_complaint_status s cid tok = (s, false) := by
  unfold update_complaint_status
  rw [h]

theorem update_complaint_status_present (s : BotState) (cid tok : Str) (c : Complaint)
    (h : lookupA s.complaint_store cid = some c) :
    lookupA (update_complaint_status s cid tok).1.complaint_store cid
      = some { c with status := tok } := by
  unfold update_complaint_status
  rw [h]
  exact lookupA_setA_self _ _ _

theorem is_admin_false (uid : Nat) (h : uid ≠ ADMIN_CHAT_ID) : is_admin uid = false := by
  simp [is_admin, h]

/-- The unauthorized branch of `admin_status_handler`. -/
theorem admin_status_handler_unauthorized (uid : Nat) (data : Str) (nOk : Bool)
    (eRes : EditResult) (s : BotState) (h : uid ≠ ADMIN_CHAT_ID) :
    admin_status_handler uid data nOk eRes s
      = (s, [.answerCallback (some not_authorized_text) true]) := by
  unfold admin_status_handler
  simp [is_admin_false uid h]

/-- The not-found branch of `admin_status_handler`. -/
theorem admin_status_handler_not_found (uid : Nat) (data : Str) (nOk : Bool)
    (eRes : EditResult) (s : BotState) (cid tok : Str)
    (hadmin : uid = ADMIN_CHAT_ID)
    (hp : parse_status_callback data = some (cid, tok))
    (hc : lookupA s.complaint_store cid = none) :
    admin_status_handler uid data nOk eRes s
      = (s, [.answerCallback none false, .replyText uid not_found_text none]) := by
  unfold admin_status_handler
  have ha : is_admin uid = true := by simp [is_admin, hadmin]
  simp only [ha, Bool.true_eq_false, not_false_eq_true, hp]
  simp [get_complaint, hc]

/-- The notification-failure branch of `admin_status_handler`: the status is
updated, then the failed push to the submitter is reported as a soft warning. -/
theorem admin_status_handler_notify_failed (uid : Nat) (data : Str) (eRes : EditResult)
    (s : BotState) (cid tok : Str) (c : Complaint)
    (hadmin : uid = ADMIN_CHAT_ID)
    (hp : parse_status_callback data = some (cid, tok))
    (hc : lookupA s.complaint_store cid = some c) :
    admin_status_handler uid data false eRes s
      = ((update_complaint_status s cid tok).1,
         [.answerCallback none false,
          .replyText uid (status_updated_notify_failed_text tok) none]) := by
  unfold admin_status_handler
  have ha : is_admin uid = true := by simp [is_admin, hadmin]
  simp only [ha, Bool.true_eq_false, not_false_eq_true, hp]
  simp [get_complaint, hc]

/-
Concrete traces used by the witnesses and counterexamples.
-/

def mkEv (u : Nat) (e : Event) : InboundEvent := { uid := u, ev := e }

def startOnlyTrace : List InboundEvent := [mkEv 1 Event.startCmd]

def lectureDoneTrace : List InboundEvent :=
  [mkEv 1 Event.startCmd,
   mkEv 1 (Event.callback (str "batch_Master_quest_2.0_2025")),
   mkEv 1 (Event.callback (str "subject_Quant")),
   mkEv 1 (Event.textMsg (str "Linear Equations Lecture 3"))]

def userFlowTrace : List InboundEvent :=
  lectureDoneTrace ++ [mkEv 1 (Event.photoMsg [str "small", str "big"])]

def c1Trace : List InboundEvent :=
  [mkEv 1 Event.startCmd, mkEv 1 (Event.callback (str "batch_xyz"))]

def c2BadTrace : List InboundEvent :=
  userFlowTrace ++ [mkEv ADMIN_CHAT_ID (Event.callback (str "status_complaint_1_bogus"))]

def c2GoodTrace : List InboundEvent :=
  userFlowTrace ++ [mkEv ADMIN_CHAT_ID (Event.callback (str "status_complaint_1_approved"))]

/-- C1 (counterexample): in `AwaitingBatch` the selection payload
`batch_xyz`, whose decoded value `xyz` is NOT in the configured batch
list, is nevertheless accepted: the value is written to the draft and the
state transitions to `AwaitingSubject`.  The handler never checks the
decoded value against `BATCHES`. -/
theorem C1_counterexample :
    pyReplace (str "_") (str " ") (pyReplace (str "batch_") [] (str "batch_xyz")) = str "xyz" ∧
    str "xyz" ∉ BATCHES ∧
    convOf (runState startOnlyTrace) 1 = ConvState.BATCH_SELECTION ∧
    convOf (runState c1Trace) 1 = ConvState.SUBJECT_SELECTION ∧
    (draftOf (runState c1Trace) 1).batch = some (str "xyz") := by
  refine ⟨by decide, by decide, by decide, by decide, by decide⟩

/-- C1 (amended): in `AwaitingBatch`, a selection event is accepted exactly
when its payload starts with `batch_`; the stored value is the payload with
`batch_` removed and underscores replaced by spaces, with no membership
check against the batch list.  Every payload not starting with `batch_`
(including `restart`, which only re-prompts) leaves the draft and the state
unchanged. -/
theorem C1_batch_acceptance (gs : GlobalState) (uid : Nat) (uname : Option Str)
    (fn data : Str) (nOk : Bool) (eRes : EditResult)
    (hst : convOf gs uid = ConvState.BATCH_SELECTION) :
    (startsWith (str "batch_") data = true →
       convOf (stepState gs ⟨uid, uname, fn, Event.callback data, nOk, eRes⟩) uid
         = ConvState.SUBJECT_SELECTION ∧
       draftOf (stepState gs ⟨uid, uname, fn, Event.callback data, nOk, eRes⟩) uid
         = (draftOf gs uid).setKey UserKey.batch
             (pyReplace (str "_") (str " ") (pyReplace (str "batch_") [] data))) ∧
    (startsWith (str "batch_") data = false →
       convOf (stepState gs ⟨uid, uname, fn, Event.callback data, nOk, eRes⟩) uid
         = ConvState.BATCH_SELECTION ∧
       draftOf (stepState gs ⟨uid, uname, fn, Event.callback data, nOk, eRes⟩) uid
         = draftOf gs uid) := by
  constructor
  · intro hb
    have hne : data ≠ str "restart" := by
      obtain ⟨t, rfl⟩ := (startsWith_iff _ _).1 hb
      intro heq
      have h2 := congrArg List.head? heq
      rw [show (str "batch_" ++ t).head? = some 'b' from rfl,
        show (str "restart").head? = some 'r' from rfl] at h2
      exact absurd h2 (by decide)
    have hcond : (startsWith (str "batch_") data || startsWith (str "restart") data) = true := by
      rw [hb]; rfl
    have hroute : step gs ⟨uid, uname, fn, Event.callback data, nOk, eRes⟩
        = applyConv gs uid (batch_selection_handler uid data gs.bot) := by
      simp only [step, hst, handle_callback]
      rw [if_pos hcond]
    have hstep : stepState gs ⟨uid, uname, fn, Event.callback data, nOk, eRes⟩
        = (applyConv gs uid (batch_selection_handler uid data gs.bot)).1 :=
      congrArg Prod.fst hroute
    constructor
    · rw [hstep]
      simp [batch_selection_handler, hne, hb, convOf_applyConv_self]
    · rw [hstep]
      simp [batch_selection_handler, hne, hb, draftOf_applyConv, applyConv,
        get_user_draft_store_self, draftOf]
  · intro hb
    by_cases hr : startsWith (str "restart") data = true
    · have hcond : (startsWith (str "batch_") data || startsWith (str "restart") data) = true := by
        rw [hr]; simp
      have hroute : step gs ⟨uid, uname, fn, Event.callback data, nOk, eRes⟩
          = applyConv gs uid (batch_selection_handler uid data gs.bot) := by
        simp only [step, hst, handle_callback]
        rw [if_pos hcond]
      have hstep : stepState gs ⟨uid, uname, fn, Event.callback data, nOk, eRes⟩
          = (applyConv gs uid (batch_selection_handler uid data gs.bot)).1 :=
        congrArg Prod.fst hroute
      by_cases hre : data = str "restart"
      · constructor
        · rw [hstep]
          simp [batch_selection_handler, hre, convOf_applyConv_self]
        · rw [hstep]
          simp [batch_selection_handler, hre, draftOf_applyConv, applyConv, draftOf]
      · constructor
        · rw [hstep]
          simp [batch_selection_handler, hre, hb, convOf_applyConv_self]
        · rw [hstep]
          simp [batch_selection_handler, hre, hb, draftOf_applyConv, applyConv, draftOf]
    · have hcond : (startsWith (str "batch_") data || startsWith (str "restart") data) = false := by
        simp [hb, hr]
      have hroute : step gs ⟨uid, uname, fn, Event.callback data, nOk, eRes⟩
          = callback_fallthrough gs ⟨uid, uname, fn, Event.callback data, nOk, eRes⟩ data := by
        simp only [step, hst, handle_callback]
        rw [if_neg (by simp [hcond])]
      have hstep : stepState gs ⟨uid, uname, fn, Event.callback data, nOk, eRes⟩
          = (callback_fallthrough gs ⟨uid, uname, fn, Event.callback data, nOk, eRes⟩ data).1 :=
        congrArg Prod.fst hroute
      constructor
      · rw [hstep, callback_fallthrough_convOf]
        exact hst
      · rw [hstep, callback_fallthrough_draftOf]

theorem C1_batch_acceptance_witness :
    convOf (runState startOnlyTrace) 1 = ConvState.BATCH_SELECTION ∧
    ((startsWith (str "batch_") (str "batch_Ace_ipm_crash_course") = true →
       convOf (stepState (runState startOnlyTrace)
           ⟨1, none, [], Event.callback (str "batch_Ace_ipm_crash_course"), true, EditResult.ok⟩) 1
         = ConvState.SUBJECT_SELECTION ∧
       draftOf (stepState (runState startOnlyTrace)
           ⟨1, none, [], Event.callback (str "batch_Ace_ipm_crash_course"), true, EditResult.ok⟩) 1
         = (draftOf (runState startOnlyTrace) 1).setKey UserKey.batch
             (pyReplace (str "_") (str " ")
               (pyReplace (str "batch_") [] (str "batch_Ace_ipm_crash_course")))) ∧
     (startsWith (str "batch_") (str "batch_Ace_ipm_crash_course") = false →
       convOf (stepState (runState startOnlyTrace)
           ⟨1, none, [], Event.callback (str "batch_Ace_ipm_crash_course"), true, EditResult.ok⟩) 1
         = ConvState.BATCH_SELECTION ∧
       draftOf (stepState (runState startOnlyTrace)
           ⟨1, none, [], Event.callback (str "batch_Ace_ipm_crash_course"), true, EditResult.ok⟩) 1
         = draftOf (runState startOnlyTrace) 1)) :=
  ⟨by decide,
   C1_batch_acceptance (runState startOnlyTrace) 1 none []
     (str "batch_Ace_ipm_crash_course") true EditResult.ok (by decide)⟩

/-- C2 (counterexample): the admin callback `status_complaint_1_bogus` stores
the token `bogus` — outside the status enumeration — as the status of
complaint 1, because `update_complaint_status` performs no validation. -/
theorem C2_counterexample :
    Reachable (runState c2BadTrace) ∧
    (lookupA (runState c2BadTrace).bot.complaint_store (str "complaint_1")).map
        Complaint.status = some (str "bogus") ∧
    str "bogus" ∉ statusEnum :=
  ⟨⟨c2BadTrace, rfl⟩, by decide, by decide⟩

/-- C2 (amended): complaint statuses are `submitted` at creation and are
overwritten verbatim by status callbacks; the enumeration invariant holds
exactly for event streams whose status-callback tokens lie in the
enumeration (which is all the tokens the generated keyboard can produce). -/
theorem C2_status_enum_closed (evs : List InboundEvent)
    (hg : ∀ e ∈ evs, goodEvent e = true) :
    ∀ cid c, lookupA (runState evs).bot.complaint_store cid = some c →
      c.status ∈ statusEnum :=
  statusesOK_runState evs hg

theorem C2_status_enum_closed_witness :
    (∀ e ∈ c2GoodTrace, goodEvent e = true) ∧
    (∀ cid c, lookupA (runState c2GoodTrace).bot.complaint_store cid = some c →
      c.status ∈ statusEnum) :=
  ⟨by decide, C2_status_enum_closed c2GoodTrace (by decide)⟩

/-- C3: in every reachable state, every user's draft is populated in the
fixed order batch → subject → lecture_name (a later field is never set
while an earlier one is unset); and an event that skips a step — a photo
sent while the user is in `AwaitingBatch` — leaves the whole state, in
particular the draft, unchanged. -/
theorem C3_draft_order :
    (∀ gs : GlobalState, Reachable gs → ∀ uid : Nat, draftOrderOK (draftOf gs uid)) ∧
    (∀ (gs : GlobalState) (uid : Nat) (uname : Option Str) (fn : Str) (sizes : List Str)
       (nOk : Bool) (eRes : EditResult),
       convOf gs uid = ConvState.BATCH_SELECTION →
       stepState gs ⟨uid, uname, fn, Event.photoMsg sizes, nOk, eRes⟩ = gs) := by
  constructor
  · rintro gs ⟨evs, rfl⟩ uid
    exact (convInv_runState evs uid).1
  · intro gs uid uname fn sizes nOk eRes hst
    simp only [stepState, step, hst]

theorem C3_draft_order_witness :
    Reachable (runState lectureDoneTrace) ∧
    draftOrderOK (draftOf (runState lectureDoneTrace) 1) ∧
    convOf (runState startOnlyTrace) 1 = ConvState.BATCH_SELECTION ∧
    stepState (runState startOnlyTrace)
        ⟨1, none, [], Event.photoMsg [str "p"], true, EditResult.ok⟩
      = runState startOnlyTrace :=
  ⟨⟨lectureDoneTrace, rfl⟩,
   C3_draft_order.1 (runState lectureDoneTrace) ⟨lectureDoneTrace, rfl⟩ 1,
   by decide,
   C3_draft_order.2 (runState startOnlyTrace) 1 none [] [str "p"] true EditResult.ok (by decide)⟩

theorem screenshot_handler_fst (uid : Nat) (uname : Option Str) (sizes : List Str)
    (s : BotState) (hsz : sizes ≠ []) :
    (screenshot_handler uid uname sizes s).1 = ConvState.END := by
  simp [screenshot_handler, hsz]

theorem screenshot_handler_store (uid : Nat) (uname : Option Str) (sizes : List Str)
    (s : BotState) (hsz : sizes ≠ []) :
    (screenshot_handler uid uname sizes s).2.1.complaint_store
      = setA s.complaint_store (complaintId (s.complaint_counter + 1))
          { id := complaintId (s.complaint_counter + 1), user_id := uid, username := uname,
            batch := (get_user_draft s uid).batch, subject := (get_user_draft s uid).subject,
            lecture_name := (get_user_draft s uid).lecture_name,
            photo_file_id := sizes.getLastD [], status := str "submitted" } := by
  simp [screenshot_handler, hsz, clear_user_data, store_user_data, create_complaint]

theorem screenshot_handler_draft (uid : Nat) (uname : Option Str) (sizes : List Str)
    (s : BotState) (hsz : sizes ≠ []) :
    lookupA (screenshot_handler uid uname sizes s).2.1.user_data_store uid = none := by
  simp [screenshot_handler, hsz, clear_user_data, lookupA_eraseA_self]

theorem screenshot_handler_acts (uid : Nat) (uname : Option Str) (sizes : List Str)
    (s : BotState) (hsz : sizes ≠ []) :
    (screenshot_handler uid uname sizes s).2.2
      = [OutAction.replyText uid
           (submit_confirm_text (complaintId (s.complaint_counter + 1))) none,
         OutAction.sendPhoto ADMIN_CHAT_ID (sizes.getLastD []),
         OutAction.sendMessage ADMIN_CHAT_ID
           (format_complaint_message
             { id := complaintId (s.complaint_counter + 1), user_id := uid, username := uname,
               batch := (get_user_draft s uid).batch, subject := (get_user_draft s uid).subject,
               lecture_name := (get_user_draft s uid).lecture_name,
               photo_file_id := sizes.getLastD [], status := str "submitted" })
           (some (get_status_keyboard (complaintId (s.complaint_counter + 1))))] := by
  simp [screenshot_handler, hsz, send_complaint_to_admin, get_complaint, store_user_data,
    create_complaint, lookupA_setA_self]

/-- C4: a valid image sent in `AwaitingPhoto` appends exactly one new
complaint, built from the user's draft, with the last (largest) photo
variant and status `submitted`; the draft is destroyed, the conversation
ends, and the complaint (photo plus formatted summary with the status
keyboard) is forwarded to the admin chat. -/
theorem C4_photo_submission (gs : GlobalState) (uid : Nat) (uname : Option Str)
    (fn : Str) (sizes : List Str) (nOk : Bool) (eRes : EditResult)
    (hreach : Reachable gs) (hst : convOf gs uid = ConvState.SCREENSHOT_UPLOAD)
    (hsz : sizes ≠ []) :
    (stepState gs ⟨uid, uname, fn, Event.photoMsg sizes, nOk, eRes⟩).bot.complaint_store
      = gs.bot.complaint_store
        ++ [(complaintId (gs.bot.complaint_counter + 1),
             { id := complaintId (gs.bot.complaint_counter + 1), user_id := uid,
               username := uname, batch := (draftOf gs uid).batch,
               subject := (draftOf gs uid).subject,
               lecture_name := (draftOf gs uid).lecture_name,
               photo_file_id := sizes.getLastD [], status := str "submitted" })] ∧
    lookupA (stepState gs ⟨uid, uname, fn, Event.photoMsg sizes, nOk, eRes⟩).bot.user_data_store uid
      = none ∧
    convOf (stepState gs ⟨uid, uname, fn, Event.photoMsg sizes, nOk, eRes⟩) uid
      = ConvState.END ∧
    (step gs ⟨uid, uname, fn, Event.photoMsg sizes, nOk, eRes⟩).2
      = [OutAction.replyText uid
           (submit_confirm_text (complaintId (gs.bot.complaint_counter + 1))) none,
         OutAction.sendPhoto ADMIN_CHAT_ID (sizes.getLastD []),
         OutAction.sendMessage ADMIN_CHAT_ID
           (format_complaint_message
             { id := complaintId (gs.bot.complaint_counter + 1), user_id := uid,
               username := uname, batch := (draftOf gs uid).batch,
               subject := (draftOf gs uid).subject,
               lecture_name := (draftOf gs uid).lecture_name,
               photo_file_id := sizes.getLastD [], status := str "submitted" })
           (some (get_status_keyboard (complaintId (gs.bot.complaint_counter + 1))))] := by
  have hfresh : lookupA gs.bot.complaint_store
      (complaintId (gs.bot.complaint_counter + 1)) = none := by
    obtain ⟨evs, rfl⟩ := hreach
    exact idsBounded_fresh _ (idsBounded_runState evs)
  have hroute : step gs ⟨uid, uname, fn, Event.photoMsg sizes, nOk, eRes⟩
      = applyConv gs uid (screenshot_handler uid uname sizes gs.bot) := by
    simp only [step, hst]
  have hstep : stepState gs ⟨uid, uname, fn, Event.photoMsg sizes, nOk, eRes⟩
      = (applyConv gs uid (screenshot_handler uid uname sizes gs.bot)).1 :=
    congrArg Prod.fst hroute
  refine ⟨?_, ?_, ?_, ?_⟩
  · rw [hstep]
    show (screenshot_handler uid uname sizes gs.bot).2.1.complaint_store = _
    rw [screenshot_handler_store uid uname sizes gs.bot hsz,
      setA_eq_append _ _ _ hfresh]
    rfl
  · rw [hstep]
    show lookupA (screenshot_handler uid uname sizes gs.bot).2.1.user_data_store uid = none
    exact screenshot_handler_draft uid uname sizes gs.bot hsz
  · rw [hstep, convOf_applyConv_self]
    exact screenshot_handler_fst uid uname sizes gs.bot hsz
  · rw [hroute]
    show (screenshot_handler uid uname sizes gs.bot).2.2 = _
    rw [screenshot_handler_acts uid uname sizes gs.bot hsz]
    rfl

theorem C4_photo_submission_witness :
    Reachable (runState lectureDoneTrace) ∧
    convOf (runState lectureDoneTrace) 1 = ConvState.SCREENSHOT_UPLOAD ∧
    ([str "small", str "big"] : List Str) ≠ [] ∧
    ((stepState (runState lectureDoneTrace)
        ⟨1, none, [], Event.photoMsg [str "small", str "big"], true, EditResult.ok⟩).bot.complaint_store
      = (runState lectureDoneTrace).bot.complaint_store
        ++ [(complaintId ((runState lectureDoneTrace).bot.complaint_counter + 1),
             { id := complaintId ((runState lectureDoneTrace).bot.complaint_counter + 1),
               user_id := 1, username := none,
               batch := (draftOf (runState lectureDoneTrace) 1).batch,
               subject := (draftOf (runState lectureDoneTrace) 1).subject,
               lecture_name := (draftOf (runState lectureDoneTrace) 1).lecture_name,
               photo_file_id := ([str "small", str "big"] : List Str).getLastD [],
               status := str "submitted" })] ∧
     lookupA (stepState (runState lectureDoneTrace)
        ⟨1, none, [], Event.photoMsg [str "small", str "big"], true, EditResult.ok⟩).bot.user_data_store 1
      = none ∧
     convOf (stepState (runState lectureDoneTrace)
        ⟨1, none, [], Event.photoMsg [str "small", str "big"], true, EditResult.ok⟩) 1
      = ConvState.END ∧
     (step (runState lectureDoneTrace)
        ⟨1, none, [], Event.photoMsg [str "small", str "big"], true, EditResult.ok⟩).2
      = [OutAction.replyText 1
           (submit_confirm_text (complaintId ((runState lectureDoneTrace).bot.complaint_counter + 1))) none,
         OutAction.sendPhoto ADMIN_CHAT_ID (([str "small", str "big"] : List Str).getLastD []),
         OutAction.sendMessage ADMIN_CHAT_ID
           (format_complaint_message
             { id := complaintId ((runState lectureDoneTrace).bot.complaint_counter + 1),
               user_id := 1, username := none,
               batch := (draftOf (runState lectureDoneTrace) 1).batch,
               subject := (draftOf (runState lectureDoneTrace) 1).subject,
               lecture_name := (draftOf (runState lectureDoneTrace) 1).lecture_name,
               photo_file_id := ([str "small", str "big"] : List Str).getLastD [],
               status := str "submitted" })
           (some (get_status_keyboard (complaintId ((runState lectureDoneTrace).bot.complaint_counter + 1))))]) :=
  ⟨⟨lectureDoneTrace, rfl⟩, by decide, by decide,
   C4_photo_submission (runState lectureDoneTrace) 1 none [] [str "small", str "big"]
     true EditResult.ok ⟨lectureDoneTrace, rfl⟩ (by decide) (by decide)⟩

/-- C5: in any sequence of complaint creations within one process lifetime,
the id returned by a later call is strictly greater (its counter component)
than the id of any earlier call, and the two ids are distinct strings —
ids are never reused. -/
theorem C5_ids_unique_increasing (s : BotState) (reqs : List CreateReq) (i j : Nat)
    (hij : i < j) (hj : j < (runCreates s reqs).1.length) :
    (runCreates s reqs).1.getD i [] ≠ (runCreates s reqs).1.getD j [] ∧
    idNum ((runCreates s reqs).1.getD i []) < idNum ((runCreates s reqs).1.getD j []) := by
  have hi : i < (runCreates s reqs).1.length := lt_trans hij hj
  rw [runCreates_getD s reqs i hi, runCreates_getD s reqs j hj]
  constructor
  · intro heq
    have hval := congrArg idNum heq
    rw [idNum_complaintId, idNum_complaintId] at hval
    omega
  · rw [idNum_complaintId, idNum_complaintId]
    omega

def c5Reqs : List CreateReq :=
  [⟨1, none, some (str "Master quest 2.0 2025"), some (str "Quant"), some (str "L1"), str "p1"⟩,
   ⟨2, some (str "bob"), some (str "master quest 2026"), some (str "DILR"), some (str "L2"), str "p2"⟩,
   ⟨1, none, some (str "Ace ipm crash course"), some (str "VARC"), some (str "L3"), str "p3"⟩]

theorem C5_ids_unique_increasing_witness :
    0 < 2 ∧ 2 < (runCreates {} c5Reqs).1.length ∧
    ((runCreates {} c5Reqs).1.getD 0 [] ≠ (runCreates {} c5Reqs).1.getD 2 [] ∧
     idNum ((runCreates {} c5Reqs).1.getD 0 []) < idNum ((runCreates {} c5Reqs).1.getD 2 [])) :=
  ⟨by decide, by decide, C5_ids_unique_increasing {} c5Reqs 0 2 (by decide) (by decide)⟩

/-- C6: a status callback by any actor other than the configured admin id
leaves the whole state (in particular every complaint and its status)
unchanged, and the actor receives the authorization-rejection alert. -/
theorem C6_unauthorized_no_change (gs : GlobalState) (uid : Nat) (uname : Option Str)
    (fn data : Str) (nOk : Bool) (eRes : EditResult)
    (hne : uid ≠ ADMIN_CHAT_ID) (hsw : startsWith (str "status_") data = true) :
    stepState gs ⟨uid, uname, fn, Event.callback data, nOk, eRes⟩ = gs ∧
    (step gs ⟨uid, uname, fn, Event.callback data, nOk, eRes⟩).2
      = [OutAction.answerCallback (some not_authorized_text) true] := by
  have hs := step_status_callback gs uid uname fn data nOk eRes hsw
  have hu := admin_status_handler_unauthorized uid data nOk eRes gs.bot hne
  constructor
  · show (step gs ⟨uid, uname, fn, Event.callback data, nOk, eRes⟩).1 = gs
    rw [hs, hu]
  · rw [hs, hu]

theorem C6_unauthorized_no_change_witness :
    (42 : Nat) ≠ ADMIN_CHAT_ID ∧
    startsWith (str "status_") (str "status_complaint_1_seen") = true ∧
    (stepState (runState userFlowTrace)
        ⟨42, none, [], Event.callback (str "status_complaint_1_seen"), true, EditResult.ok⟩
      = runState userFlowTrace ∧
     (step (runState userFlowTrace)
        ⟨42, none, [], Event.callback (str "status_complaint_1_seen"), true, EditResult.ok⟩).2
      = [OutAction.answerCallback (some not_authorized_text) true]) :=
  ⟨by decide, by decide,
   C6_unauthorized_no_change (runState userFlowTrace) 42 none []
     (str "status_complaint_1_seen") true EditResult.ok (by decide) (by decide)⟩

/-- C7: a status update naming a complaint id that is not in the record
store is a no-op: `update_complaint_status` returns `false` and leaves the
store untouched, and at the handler level the admin gets the not-found
reply while no record is created or modified. -/
theorem C7_not_found_noop :
    (∀ (s : BotState) (cid tok : Str), lookupA s.complaint_store cid = none →
       update_complaint_status s cid tok = (s, false)) ∧
    (∀ (gs : GlobalState) (uid : Nat) (uname : Option Str) (fn data cid tok : Str)
       (nOk : Bool) (eRes : EditResult),
       uid = ADMIN_CHAT_ID →
       parse_status_callback data = some (cid, tok) →
       lookupA gs.bot.complaint_store cid = none →
       stepState gs ⟨uid, uname, fn, Event.callback data, nOk, eRes⟩ = gs ∧
       (step gs ⟨uid, uname, fn, Event.callback data, nOk, eRes⟩).2
         = [OutAction.answerCallback none false,
            OutAction.replyText uid not_found_text none]) := by
  constructor
  · intro s cid tok h
    exact update_complaint_status_absent s cid tok h
  · intro gs uid uname fn data cid tok nOk eRes hadmin hp hc
    have hs := step_status_callback gs uid uname fn data nOk eRes (parse_some_startsWith data _ hp)
    have hn := admin_status_handler_not_found uid data nOk eRes gs.bot cid tok hadmin hp hc
    constructor
    · show (step gs ⟨uid, uname, fn, Event.callback data, nOk, eRes⟩).1 = gs
      rw [hs, hn]
    · rw [hs, hn]

theorem C7_not_found_noop_witness :
    lookupA (runState userFlowTrace).bot.complaint_store (str "complaint_9") = none ∧
    parse_status_callback (str "status_complaint_9_seen")
      = some (str "complaint_9", str "seen") ∧
    update_complaint_status (runState userFlowTrace).bot (str "complaint_9") (str "seen")
      = ((runState userFlowTrace).bot, false) ∧
    (stepState (runState userFlowTrace)
        ⟨ADMIN_CHAT_ID, none, [], Event.callback (str "status_complaint_9_seen"), true, EditResult.ok⟩
      = runState userFlowTrace ∧
     (step (runState userFlowTrace)
        ⟨ADMIN_CHAT_ID, none, [], Event.callback (str "status_complaint_9_seen"), true, EditResult.ok⟩).2
      = [OutAction.answerCallback none false,
         OutAction.replyText ADMIN_CHAT_ID not_found_text none]) :=
  ⟨by decide, by decide,
   C7_not_found_noop.1 (runState userFlowTrace).bot (str "complaint_9") (str "seen") (by decide),
   C7_not_found_noop.2 (runState userFlowTrace) ADMIN_CHAT_ID none []
     (str "status_complaint_9_seen") (str "complaint_9") (str "seen") true EditResult.ok
     rfl (by decide) (by decide)⟩

/-- C8: in `AwaitingLectureName`, a text whose Python-strip is empty only
re-prompts — no transition, the user-data store is untouched; a non-empty
trimmed text is stored (trimmed) and the state moves to `AwaitingPhoto`. -/
theorem C8_lecture_name_validation (gs : GlobalState) (uid : Nat) (uname : Option Str)
    (fn text : Str) (nOk : Bool) (eRes : EditResult)
    (hst : convOf gs uid = ConvState.LECTURE_NAME_INPUT) :
    (pyStrip text = [] →
       convOf (stepState gs ⟨uid, uname, fn, Event.textMsg text, nOk, eRes⟩) uid
         = ConvState.LECTURE_NAME_INPUT ∧
       (stepState gs ⟨uid, uname, fn, Event.textMsg text, nOk, eRes⟩).bot.user_data_store
         = gs.bot.user_data_store ∧
       (step gs ⟨uid, uname, fn, Event.textMsg text, nOk, eRes⟩).2
         = [OutAction.replyText uid invalid_lecture_text none]) ∧
    (pyStrip text ≠ [] →
       convOf (stepState gs ⟨uid, uname, fn, Event.textMsg text, nOk, eRes⟩) uid
         = ConvState.SCREENSHOT_UPLOAD ∧
       draftOf (stepState gs ⟨uid, uname, fn, Event.textMsg text, nOk, eRes⟩) uid
         = (draftOf gs uid).setKey UserKey.lecture_name (pyStrip text)) := by
  have hroute : step gs ⟨uid, uname, fn, Event.textMsg text, nOk, eRes⟩
      = applyConv gs uid (lecture_name_handler uid text gs.bot) := by
    simp only [step, hst]
  have hstep : stepState gs ⟨uid, uname, fn, Event.textMsg text, nOk, eRes⟩
      = (applyConv gs uid (lecture_name_handler uid text gs.bot)).1 :=
    congrArg Prod.fst hroute
  constructor
  · intro h1
    refine ⟨?_, ?_, ?_⟩
    · rw [hstep]
      simp [lecture_name_handler, h1, convOf_applyConv_self]
    · rw [hstep]
      simp [lecture_name_handler, h1, applyConv]
    · rw [hroute]
      simp [lecture_name_handler, h1, applyConv]
  · intro h1
    refine ⟨?_, ?_⟩
    · rw [hstep]
      simp [lecture_name_handler, h1, convOf_applyConv_self]
    · rw [hstep]
      simp [lecture_name_handler, h1, draftOf_applyConv, applyConv,
        get_user_draft_store_self, draftOf]

def subjectDoneTrace : List InboundEvent :=
  [mkEv 1 Event.startCmd,
   mkEv 1 (Event.callback (str "batch_master_quest_2026")),
   mkEv 1 (Event.callback (str "subject_DILR"))]

theorem C8_lecture_name_validation_witness :
    convOf (runState subjectDoneTrace) 1 = ConvState.LECTURE_NAME_INPUT ∧
    ((pyStrip (str "   ") = [] →
       convOf (stepState (runState subjectDoneTrace)
           ⟨1, none, [], Event.textMsg (str "   "), true, EditResult.ok⟩) 1
         = ConvState.LECTURE_NAME_INPUT ∧
       (stepState (runState subjectDoneTrace)
           ⟨1, none, [], Event.textMsg (str "   "), true, EditResult.ok⟩).bot.user_data_store
         = (runState subjectDoneTrace).bot.user_data_store ∧
       (step (runState subjectDoneTrace)
           ⟨1, none, [], Event.textMsg (str "   "), true, EditResult.ok⟩).2
         = [OutAction.replyText 1 invalid_lecture_text none]) ∧
     (pyStrip (str "   ") ≠ [] →
       convOf (stepState (runState subjectDoneTrace)
           ⟨1, none, [], Event.textMsg (str "   "), true, EditResult.ok⟩) 1
         = ConvState.SCREENSHOT_UPLOAD ∧
       draftOf (stepState (runState subjectDoneTrace)
           ⟨1, none, [], Event.textMsg (str "   "), true, EditResult.ok⟩) 1
         = (draftOf (runState subjectDoneTrace) 1).setKey UserKey.lecture_name
             (pyStrip (str "   ")))) :=
  ⟨by decide,
   C8_lecture_name_validation (runState subjectDoneTrace) 1 none [] (str "   ")
     true EditResult.ok (by decide)⟩

/-- C9: when the admin applies a status to an existing complaint and the
notification to the submitter fails, the new status stays in the record
store (no rollback) and the admin is told the update succeeded but the
user could not be notified. -/
theorem C9_notify_failure_no_rollback (gs : GlobalState) (uid : Nat) (uname : Option Str)
    (fn data cid tok : Str) (c : Complaint) (eRes : EditResult)
    (hadmin : uid = ADMIN_CHAT_ID)
    (hp : parse_status_callback data = some (cid, tok))
    (hc : lookupA gs.bot.complaint_store cid = some c) :
    lookupA (stepState gs ⟨uid, uname, fn, Event.callback data, false, eRes⟩).bot.complaint_store cid
      = some { c with status := tok } ∧
    (step gs ⟨uid, uname, fn, Event.callback data, false, eRes⟩).2
      = [OutAction.answerCallback none false,
         OutAction.replyText uid (status_updated_notify_failed_text tok) none] := by
  have hs := step_status_callback gs uid uname fn data false eRes (parse_some_startsWith data _ hp)
  have hh := admin_status_handler_notify_failed uid data eRes gs.bot cid tok c hadmin hp hc
  constructor
  · show lookupA (step gs ⟨uid, uname, fn, Event.callback data, false, eRes⟩).1.bot.complaint_store cid = _
    rw [hs, hh]
    exact update_complaint_status_present gs.bot cid tok c hc
  · rw [hs, hh]

def c9Complaint : Complaint :=
  { id := str "complaint_1", user_id := 1, username := none,
    batch := some (str "Master quest 2.0 2025"), subject := some (str "Quant"),
    lecture_name := some (str "Linear Equations Lecture 3"),
    photo_file_id := str "big", status := str "submitted" }

theorem C9_notify_failure_no_rollback_witness :
    parse_status_callback (str "status_complaint_1_approved")
      = some (str "complaint_1", str "approved") ∧
    lookupA (runState userFlowTrace).bot.complaint_store (str "complaint_1")
      = some c9Complaint ∧
    (lookupA (stepState (runState userFlowTrace)
        ⟨ADMIN_CHAT_ID, none, [], Event.callback (str "status_complaint_1_approved"),
         false, EditResult.ok⟩).bot.complaint_store (str "complaint_1")
      = some { c9Complaint with status := str "approved" } ∧
     (step (runState userFlowTrace)
        ⟨ADMIN_CHAT_ID, none, [], Event.callback (str "status_complaint_1_approved"),
         false, EditResult.ok⟩).2
      = [OutAction.answerCallback none false,
         OutAction.replyText ADMIN_CHAT_ID
           (status_updated_notify_failed_text (str "approved")) none]) :=
  ⟨by decide, by decide,
   C9_notify_failure_no_rollback (runState userFlowTrace) ADMIN_CHAT_ID none []
     (str "status_complaint_1_approved") (str "complaint_1") (str "approved")
     c9Complaint EditResult.ok rfl (by decide) (by decide)⟩

/-- C10: for every complaint id of the form `complaint_N` and every label in
the status option list, the admin handler's parsing (split on underscores,
rejoin the middle as the id, last part as the status) of the keyboard
payload `status_\x7bid\x7d_\x7blabel.lower()\x7d` recovers exactly that id and that
lowercased label. -/
theorem C10_payload_roundtrip (n : Nat) (status : Str) (h : status ∈ STATUS_OPTIONS) :
    parse_status_callback (statusCallbackData (complaintId n) status)
      = some (complaintId n, pyLower status) := by
  have htok : ∀ c ∈ pyLower status, c ≠ '_' := by
    simp only [STATUS_OPTIONS] at h
    fin_cases h <;> decide
  exact parse_encode (natRepr n) (pyLower status) (natRepr_ne_underscore n) htok

theorem C10_payload_roundtrip_witness :
    str "Approved" ∈ STATUS_OPTIONS ∧
    parse_status_callback (statusCallbackData (complaintId 7) (str "Approved"))
      = some (complaintId 7, pyLower (str "Approved")) :=
  ⟨by decide, C10_payload_roundtrip 7 (str "Approved") (by decide)⟩
